import Mathlib

/-
Verification of the ping-pong game core (src/game/paddle.py, src/game/ball.py,
src/game/game_engine.py).

Modelling conventions:
* Python floats are idealized as real numbers (ℝ).
* Python `int(x)` (truncation toward zero) is `pyint`; `math.copysign` is
  `pycopysign`; `math.hypot` is `pyhypot`; `math.radians` is `math_radians`.
* `random.uniform`, `random.choice` and `random.random()` draws are passed in
  explicitly as oracle parameters, so every operation is a pure function of
  (state, inputs, oracle).
* `pygame.time.get_ticks()` is modelled by an explicit `now : ℤ` (milliseconds)
  parameter per frame.
* `pygame.Rect` is a quadruple of integers; `colliderect` is the pygame
  strict-overlap test.
* Sound playback (SoundManager method calls) is pure I/O and is omitted; the
  engine constructor's call `self.ball.set_callbacks(...)` is modelled through
  Python attribute lookup on the `Ball` class (see `ballAttributes` and
  `GameEngine.engineInit`).
* Leading underscores of Python names (`_wall_bounce`, `_paddle_bounce`,
  `_reset_game`, ...) are dropped in the Lean names.
-/

namespace PingPong

open scoped Classical

noncomputable section

/-- Python `int(x)`: truncation toward zero (floor for nonnegative reals,
ceiling for negative reals). -/
def pyint (x : ℝ) : ℤ := if 0 ≤ x then ⌊x⌋ else ⌈x⌉

/-- Python `math.copysign mag s`: magnitude of `mag` with the sign of `s`
(signed zero is not representable in ℝ; `s = 0` counts as positive, which
matches all call sites in the source, where the second argument is nonzero). -/
def pycopysign (mag s : ℝ) : ℝ := if s < 0 then -|mag| else |mag|

/-- Python `math.hypot x y`. -/
def pyhypot (x y : ℝ) : ℝ := Real.sqrt (x ^ 2 + y ^ 2)

/-- Python `math.radians deg`. -/
def math_radians (deg : ℝ) : ℝ := deg * Real.pi / 180

/-- `pygame.Rect` with integer fields, as produced by `Paddle.rect` and
`Ball.rect` (both call `int(...)` on every component). -/
structure Rect where
  x : ℤ
  y : ℤ
  w : ℤ
  h : ℤ

/-- `pygame.Rect.colliderect`: strict overlap on both axes. -/
def Rect.colliderect (a b : Rect) : Prop :=
  a.x < b.x + b.w ∧ a.x + a.w > b.x ∧ a.y < b.y + b.h ∧ a.y + a.h > b.y

instance (a b : Rect) : Decidable (a.colliderect b) := by
  unfold Rect.colliderect; infer_instance

/-- State of `paddle.py`'s `Paddle` class. -/
structure Paddle where
  x : ℝ
  y : ℝ
  width : ℝ
  height : ℝ
  speed : ℝ

/-- `Paddle.__init__`: speeds are in pixels per second, default 420. -/
def Paddle.init (x y width height : ℝ) : Paddle :=
  { x := x, y := y, width := width, height := height, speed := 420 }

/-- `Paddle.move` (legacy per-pixel move). -/
def Paddle.move (p : Paddle) (dy : ℝ) (screen_height : ℝ) : Paddle :=
  let y := p.y + dy
  { p with y := max 0 (min y (screen_height - p.height)) }

/-- `Paddle.move_speed`: dt-based movement; direction -1 is up, +1 is down. -/
def Paddle.move_speed (p : Paddle) (direction : ℤ) (dt : ℝ) (screen_height : ℝ) : Paddle :=
  let y := p.y + (direction : ℝ) * p.speed * dt
  { p with y := max 0 (min y (screen_height - p.height)) }

/-- `Paddle.rect`. -/
def Paddle.rect (p : Paddle) : Rect :=
  { x := pyint p.x, y := pyint p.y, w := pyint p.width, h := pyint p.height }

/-- `Paddle.center_y`. -/
def Paddle.center_y (p : Paddle) : ℝ := p.y + p.height / 2

/-- State of `ball.py`'s `Ball` class. -/
structure Ball where
  spawn_x : ℝ
  spawn_y : ℝ
  x : ℝ
  y : ℝ
  width : ℝ
  height : ℝ
  screen_width : ℝ
  screen_height : ℝ
  base_speed : ℝ
  max_speed : ℝ
  speed_increase : ℝ
  vx : ℝ
  vy : ℝ

/-- `Ball._set_initial_velocity`: a mostly-horizontal vector.  The random
draws `random.uniform(-0.35, 0.35)` and `random.choice([-1, 1])` are the
oracle parameters `angle` and `choice`. -/
def Ball.set_initial_velocity (b : Ball) (angle choice : ℝ) (direction : Option ℝ) : Ball :=
  let vx0 := b.base_speed * pycopysign 1 choice * Real.cos angle
  let vy := b.base_speed * Real.sin angle
  let vx := match direction with
    | none => vx0
    | some d => |vx0| * d
  { b with vx := vx, vy := vy }

/-- `Ball.__init__`: velocities are in pixels/sec; base speed 360, max speed
840, speed increase 1.06 per paddle hit. -/
def Ball.init (x y width height screen_width screen_height : ℝ)
    (angle choice : ℝ) : Ball :=
  Ball.set_initial_velocity
    { spawn_x := x, spawn_y := y, x := x, y := y, width := width, height := height,
      screen_width := screen_width, screen_height := screen_height,
      base_speed := 360, max_speed := 840, speed_increase := 1.06,
      vx := 0, vy := 0 } angle choice none

/-- `Ball.rect`. -/
def Ball.rect (b : Ball) : Rect :=
  { x := pyint b.x, y := pyint b.y, w := pyint b.width, h := pyint b.height }

/-- `Ball.center_y`. -/
def Ball.center_y (b : Ball) : ℝ := b.y + b.height / 2

/-- `Ball.speed`. -/
def Ball.speed (b : Ball) : ℝ := pyhypot b.vx b.vy

/-- `Ball._wall_bounce`: clamp to the crossed bound and negate the vertical
velocity. -/
def Ball.wall_bounce (b : Ball) : Ball :=
  if b.y ≤ 0 then
    { b with y := 0, vy := -b.vy }
  else if b.y + b.height ≥ b.screen_height then
    { b with y := b.screen_height - b.height, vy := -b.vy }
  else b

/-- `Ball._paddle_bounce`: reposition flush outside the paddle with a 1px
epsilon, deflect by up to 45 degrees according to the contact offset, speed up
by `speed_increase` clamped to `max_speed`, and nudge the vertical velocity to
magnitude 60 if nearly flat. -/
def Ball.paddle_bounce (b : Ball) (paddle : Paddle) : Ball :=
  let incoming_right := b.vx > 0
  let b :=
    if incoming_right then { b with x := paddle.x - b.width - 1 }
    else { b with x := paddle.x + paddle.width + 1 }
  let out_dir : ℝ := if incoming_right then -1 else 1
  let rel := (b.center_y - paddle.center_y) / (paddle.height / 2)
  let rel := max (-1) (min 1 rel)
  let max_angle := math_radians 45
  let angle := rel * max_angle
  let speed := min (b.speed * b.speed_increase) b.max_speed
  let vx := out_dir * speed * Real.cos angle
  let vy := speed * Real.sin angle
  let vy :=
    if |vy| < 60 then
      pycopysign 60 (if vy ≠ 0 then vy else (if rel ≠ 0 then rel else 1))
    else vy
  { b with vx := vx, vy := vy }

/-- `Ball.max_comp`: the quantity `max(abs(self.vx), abs(self.vy))` computed
at the top of `Ball.advance`. -/
def Ball.max_comp (b : Ball) : ℝ := max |b.vx| |b.vy|

/-- The sub-step count of `Ball.advance`: `max(1, int((max_comp * dt) / 4.0))`. -/
def Ball.advance_steps (b : Ball) (dt : ℝ) : ℤ :=
  max 1 (pyint (b.max_comp * dt / 4))

/-- The sub-step duration of `Ball.advance`: `dt / steps`. -/
def Ball.step_dt (b : Ball) (dt : ℝ) : ℝ :=
  dt / ((b.advance_steps dt : ℤ) : ℝ)

/-- One iteration of the loop body of `Ball.advance`: move, resolve walls,
resolve paddles (gated by travel direction). -/
def Ball.advance_substep (player ai : Paddle) (sdt : ℝ) (b : Ball) : Ball :=
  let b := { b with x := b.x + b.vx * sdt, y := b.y + b.vy * sdt }
  let b := b.wall_bounce
  if b.rect.colliderect player.rect ∧ b.vx < 0 then b.paddle_bounce player
  else if b.rect.colliderect ai.rect ∧ b.vx > 0 then b.paddle_bounce ai
  else b

/-- `Ball.advance`: sub-step integration to avoid tunneling; moves in micro
steps of at most a few pixels. -/
def Ball.advance (b : Ball) (dt : ℝ) (player ai : Paddle) : Ball :=
  let steps := (b.advance_steps dt).toNat
  let sdt := b.step_dt dt
  (Ball.advance_substep player ai sdt)^[steps] b

/-- `Ball.reset`: reposition to the spawn point (adjusted for size) and assign
a fresh serve velocity. -/
def Ball.reset (b : Ball) (angle choice : ℝ) (direction : Option ℝ) : Ball :=
  Ball.set_initial_velocity
    { b with x := b.spawn_x - b.width / 2, y := b.spawn_y - b.height / 2 }
    angle choice direction

/-- `Paddle.auto_track`: track the ball center with capped speed, with a 6px
deadzone to reduce jitter. -/
def Paddle.auto_track (p : Paddle) (ball : Ball) (screen_height : ℝ) (dt : ℝ) : Paddle :=
  let target := ball.y + ball.height / 2
  let dirn : ℤ :=
    if target < p.center_y - 6 then -1
    else if target > p.center_y + 6 then 1
    else 0
  if dirn ≠ 0 then p.move_speed dirn dt screen_height else p

/-- Module-level constant `STATE_PLAYING` of game_engine.py. -/
def STATE_PLAYING : String := "PLAYING"

/-- Module-level constant `STATE_REPLAY_MENU` of game_engine.py. -/
def STATE_REPLAY_MENU : String := "REPLAY_MENU"

/-- Module-level constant `STATE_SERIES_INTERMISSION` of game_engine.py. -/
def STATE_SERIES_INTERMISSION : String := "INTERMISSION"

/-- Module-level constant `MENU_FIRST_CHOICE`. -/
def MENU_FIRST_CHOICE : String := "FIRST_CHOICE"

/-- Module-level constant `MENU_POST_SERIES`. -/
def MENU_POST_SERIES : String := "POST_SERIES"

/-- `random_chance(p)` from game_engine.py: `random.random() < p`, with the
uniform draw `u` from `[0, 1)` passed in as an oracle parameter. -/
def random_chance (p : ℝ) (u : ℝ) : Prop := u < p

/-- State of `game_engine.py`'s `GameEngine` class (fonts and the sound
manager, which are pure I/O handles, are omitted).  Leading underscores of
Python attribute names are dropped. -/
structure GameEngine where
  width : ℤ
  height : ℤ
  paddle_width : ℤ
  paddle_height : ℤ
  player : Paddle
  ai : Paddle
  ball : Ball
  points_to_win_game : ℕ
  series_active : Bool
  series_best : ℕ
  series_games_to_win : ℕ
  series_player_wins : ℕ
  series_ai_wins : ℕ
  series_winner : Option String
  player_score : ℕ
  ai_score : ℕ
  game_winner : Option String
  last_game_winner : Option String
  menu_options : List String
  menu_index : ℤ
  menu_context : String
  move_dir : ℤ
  state : String
  request_quit : Bool
  intermission_start_ms : Option ℤ
  intermission_ms : ℤ
  ai_deadzone : ℝ
  ai_reaction_ms : ℤ
  ai_last_update_ms : ℤ
  ai_move_dir : ℤ
  ai_center_bias : ℝ

/-- The attribute names available on instances of class `Ball` in ball.py:
its methods and the instance attributes assigned in `Ball.__init__`.  Used to
model Python attribute lookup in `GameEngine.__init__`. -/
def ballAttributes : List String :=
  ["__init__", "_set_initial_velocity", "rect", "center_y", "_wall_bounce",
   "_paddle_bounce", "speed", "advance", "reset",
   "spawn_x", "spawn_y", "x", "y", "width", "height", "screen_width",
   "screen_height", "base_speed", "max_speed", "speed_increase", "vx", "vy"]

/-- `GameEngine._games_needed`: `best_of // 2 + 1`. -/
def GameEngine.games_needed (best_of : ℕ) : ℕ := best_of / 2 + 1

/-- `GameEngine.__init__`.  The result is `Except.error` when construction
raises: the statement `self.ball.set_callbacks(...)` performs an attribute
lookup of `"set_callbacks"` on the ball, which raises `AttributeError` when
the class defines no such attribute.  The `ok` branch carries the fields the
rest of `__init__` would assign.  `angle` and `choice` are the random draws
of the ball's initial velocity. -/
def GameEngine.engineInit (width height : ℤ) (angle choice : ℝ) :
    Except String GameEngine :=
  let paddle_width : ℤ := 10
  let paddle_height : ℤ := 100
  let player := Paddle.init 10 ((height.fdiv 2 - 50 : ℤ) : ℝ)
    (paddle_width : ℝ) (paddle_height : ℝ)
  let ai := Paddle.init ((width - 20 : ℤ) : ℝ) ((height.fdiv 2 - 50 : ℤ) : ℝ)
    (paddle_width : ℝ) (paddle_height : ℝ)
  let ball := Ball.init ((width.fdiv 2 : ℤ) : ℝ) ((height.fdiv 2 : ℤ) : ℝ)
    10 10 (width : ℝ) (height : ℝ) angle choice
  if "set_callbacks" ∈ ballAttributes then
    Except.ok
      { width := width, height := height,
        paddle_width := paddle_width, paddle_height := paddle_height,
        player := player, ai := { ai with speed := 320 }, ball := ball,
        points_to_win_game := 5,
        series_active := false, series_best := 3,
        series_games_to_win := GameEngine.games_needed 3,
        series_player_wins := 0, series_ai_wins := 0, series_winner := none,
        player_score := 0, ai_score := 0,
        game_winner := none, last_game_winner := none,
        menu_options := ["Best of 3", "Best of 5", "Best of 7", "Exit"],
        menu_index := 0, menu_context := "FIRST_CHOICE",
        move_dir := 0, state := STATE_PLAYING, request_quit := false,
        intermission_start_ms := none, intermission_ms := 1100,
        ai_deadzone := 14, ai_reaction_ms := 110, ai_last_update_ms := 0,
        ai_move_dir := 0, ai_center_bias := 0.22 }
  else
    Except.error "AttributeError: Ball object has no attribute set_callbacks"

/-- `GameEngine._center_paddles`. -/
def GameEngine.center_paddles (e : GameEngine) : GameEngine :=
  let y : ℝ := ((e.height.fdiv 2 - e.paddle_height.fdiv 2 : ℤ) : ℝ)
  { e with player := { e.player with y := y }, ai := { e.ai with y := y } }

/-- `GameEngine._reset_game`: reset scores, recenter paddles, reset the ball
with no forced direction, return to PLAYING. -/
def GameEngine.reset_game (e : GameEngine) (angle choice : ℝ) : GameEngine :=
  let e := { e with player_score := 0, ai_score := 0, game_winner := none }
  let e := e.center_paddles
  let e := { e with ball := e.ball.reset angle choice none }
  { e with state := STATE_PLAYING, move_dir := 0 }

/-- `GameEngine._start_intermission`. -/
def GameEngine.start_intermission (e : GameEngine) (now : ℤ) : GameEngine :=
  { e with state := STATE_SERIES_INTERMISSION, intermission_start_ms := some now }

/-- `GameEngine._end_series_if_needed`: returns the updated engine and the
boolean the Python method returns. -/
def GameEngine.end_series_if_needed (e : GameEngine) : GameEngine × Bool :=
  if e.series_player_wins ≥ e.series_games_to_win then
    ({ e with series_winner := some "Player" }, true)
  else if e.series_ai_wins ≥ e.series_games_to_win then
    ({ e with series_winner := some "AI" }, true)
  else (e, false)

/-- `GameEngine._apply_menu_choice_start_series`.  Python `"3" in label` is
substring containment. -/
def GameEngine.apply_menu_choice_start_series (e : GameEngine) (label : String)
    (angle choice : ℝ) : GameEngine :=
  if label = "Exit" then { e with request_quit := true }
  else
    let best : ℕ :=
      if "3".toList <:+: label.toList then 3
      else if "5".toList <:+: label.toList then 5
      else if "7".toList <:+: label.toList then 7
      else 3
    let e := { e with series_best := best }
    let e := { e with
      series_games_to_win := GameEngine.games_needed e.series_best,
      series_player_wins := 0, series_ai_wins := 0, series_winner := none,
      series_active := true, menu_context := "POST_SERIES" }
    e.reset_game angle choice

/-- `GameEngine._apply_menu_choice_post_series`. -/
def GameEngine.apply_menu_choice_post_series (e : GameEngine) (label : String)
    (angle choice : ℝ) : GameEngine :=
  if label = "Exit" then { e with request_quit := true }
  else e.apply_menu_choice_start_series label angle choice

/-- A pygame event as far as `handle_input` inspects it. -/
structure PyEvent where
  etype : ℕ
  key : ℕ

/-- pygame constant `KEYDOWN`. -/
def KEYDOWN : ℕ := 768

/-- pygame key constant `K_ESCAPE`. -/
def K_ESCAPE : ℕ := 27

/-- pygame key constant `K_q`. -/
def K_q : ℕ := 113

/-- pygame key constant `K_w`. -/
def K_w : ℕ := 119

/-- pygame key constant `K_s`. -/
def K_s : ℕ := 115

/-- pygame key constant `K_RETURN`. -/
def K_RETURN : ℕ := 13

/-- pygame key constant `K_SPACE`. -/
def K_SPACE : ℕ := 32

/-- pygame key constant `K_r`. -/
def K_r : ℕ := 114

/-- pygame key constant `K_3`. -/
def K_3 : ℕ := 51

/-- pygame key constant `K_5`. -/
def K_5 : ℕ := 53

/-- pygame key constant `K_7`. -/
def K_7 : ℕ := 55

/-- pygame key constant `K_UP`. -/
def K_UP : ℕ := 1073741906

/-- pygame key constant `K_DOWN`. -/
def K_DOWN : ℕ := 1073741905

/-- The REPLAY_MENU event loop of `GameEngine.handle_input`: processes KEYDOWN
events in order; the first event that yields a choice applies it and returns
immediately; navigation events mutate the cursor and continue. -/
def GameEngine.menu_scan (angle choice : ℝ) :
    GameEngine → List PyEvent → GameEngine
  | e, [] => e
  | e, ev :: rest =>
    if ev.etype = KEYDOWN then
      let choice0 : Option String :=
        if ev.key = K_3 then some "Best of 3"
        else if ev.key = K_5 then some "Best of 5"
        else if ev.key = K_7 then some "Best of 7"
        else none
      let nav_up := ev.key = K_UP ∨ ev.key = K_w
      let nav_down := ev.key = K_DOWN ∨ ev.key = K_s
      let e1 :=
        if nav_up then
          { e with menu_index := (e.menu_index - 1).emod (e.menu_options.length : ℤ) }
        else if nav_down then
          { e with menu_index := (e.menu_index + 1).emod (e.menu_options.length : ℤ) }
        else e
      let chosen : Option String :=
        if ¬nav_up ∧ ¬nav_down ∧ (ev.key = K_RETURN ∨ ev.key = K_SPACE ∨ ev.key = K_r) then
          some (e1.menu_options.getD e1.menu_index.toNat "")
        else choice0
      match chosen with
      | some c =>
        if e1.menu_context = MENU_FIRST_CHOICE then
          e1.apply_menu_choice_start_series c angle choice
        else
          e1.apply_menu_choice_post_series c angle choice
      | none => GameEngine.menu_scan angle choice e1 rest
    else GameEngine.menu_scan angle choice e rest

/-- `GameEngine.handle_input`.  `events` is the per-frame event list, `keys`
the continuous key-held snapshot (`pygame.key.get_pressed()`); `angle` and
`choice` are the random draws consumed if a game reset happens. -/
def GameEngine.handle_input (e : GameEngine) (events : List PyEvent)
    (keys : ℕ → Bool) (dt : ℝ) (angle choice : ℝ) : GameEngine :=
  let e := events.foldl
    (fun acc ev =>
      if ev.etype = KEYDOWN ∧ (ev.key = K_ESCAPE ∨ ev.key = K_q) then
        { acc with request_quit := true }
      else acc) e
  if e.state = STATE_PLAYING then
    let md : ℤ := (if keys K_w then -1 else 0) + (if keys K_s then 1 else 0)
    let e := { e with move_dir := md }
    if e.move_dir ≠ 0 then
      { e with player := e.player.move_speed e.move_dir dt (e.height : ℝ) }
    else e
  else if e.state = STATE_SERIES_INTERMISSION then
    if events.any (fun ev =>
        ev.etype = KEYDOWN &&
        (ev.key = K_RETURN || ev.key = K_SPACE || ev.key = K_r)) then
      e.reset_game angle choice
    else e
  else if e.state = STATE_REPLAY_MENU then
    GameEngine.menu_scan angle choice e events
  else e

/-- The random draws one call of `GameEngine.update` may consume: `u1` for the
`random_chance(0.03)` human-error call, `u2` for the `random_chance(bias)`
center-drift call, and the angle/choice draws of a ball reset after a score. -/
structure UpdateOracle where
  u1 : ℝ
  u2 : ℝ
  reset_angle : ℝ
  reset_choice : ℝ

/-- The competitive-AI block of `GameEngine.update` (decision recomputation
every reaction window, random human error, center drift, and the AI paddle
move). -/
def GameEngine.ai_section (e : GameEngine) (dt : ℝ) (now : ℤ)
    (o : UpdateOracle) : GameEngine :=
  let ball_moving_right := e.ball.vx > 0
  let e :=
    if now - e.ai_last_update_ms ≥ e.ai_reaction_ms then
      let e := { e with ai_last_update_ms := now }
      let target_y :=
        if ¬ball_moving_right then (e.height : ℝ) / 2
        else e.ball.y + e.ball.height / 2
      let ai_center := e.ai.y + e.ai.height / 2
      let d : ℤ :=
        if target_y < ai_center - e.ai_deadzone then -1
        else if target_y > ai_center + e.ai_deadzone then 1
        else 0
      let d := if ball_moving_right ∧ random_chance 0.03 o.u1 then 0 else d
      { e with ai_move_dir := d }
    else e
  let e :=
    if ¬ball_moving_right ∧ e.ai_move_dir = 0 then
      let center := (e.height : ℝ) / 2
      if e.ai.y + e.ai.height / 2 < center - 8 then
        { e with ai_move_dir := if random_chance e.ai_center_bias o.u2 then 1 else 0 }
      else if e.ai.y + e.ai.height / 2 > center + 8 then
        { e with ai_move_dir := if random_chance e.ai_center_bias o.u2 then -1 else 0 }
      else e
    else e
  if e.ai_move_dir ≠ 0 then
    { e with ai := e.ai.move_speed e.ai_move_dir dt (e.height : ℝ) }
  else e

/-- The per-game scoring block of `GameEngine.update` (lines 319 to 326): a
ball whose right edge is left of the field increments the AI score and is
reset with serve direction `+1`; a ball past the right edge increments the
player score and is reset with serve direction `-1`.  (The score sound is
I/O and omitted.) -/
def GameEngine.score_section (e : GameEngine) (o : UpdateOracle) : GameEngine :=
  if e.ball.x + e.ball.width < 0 then
    { e with ai_score := e.ai_score + 1,
             ball := e.ball.reset o.reset_angle o.reset_choice (some 1) }
  else if e.ball.x > (e.width : ℝ) then
    { e with player_score := e.player_score + 1,
             ball := e.ball.reset o.reset_angle o.reset_choice (some (-1)) }
  else e

/-- The game-end block of `GameEngine.update` (lines 328 to 351). -/
def GameEngine.game_end_section (e : GameEngine) (now : ℤ) : GameEngine :=
  if e.player_score ≥ e.points_to_win_game ∨ e.ai_score ≥ e.points_to_win_game then
    let w : String := if e.player_score > e.ai_score then "Player" else "AI"
    let e := { e with game_winner := some w, last_game_winner := some w }
    if e.series_active = false then
      { e with state := STATE_REPLAY_MENU, menu_context := "FIRST_CHOICE",
               menu_index := 0 }
    else
      let e :=
        if w = "Player" then { e with series_player_wins := e.series_player_wins + 1 }
        else { e with series_ai_wins := e.series_ai_wins + 1 }
      let r := e.end_series_if_needed
      if r.2 then
        { r.1 with state := STATE_REPLAY_MENU, menu_context := "POST_SERIES",
                   menu_index := 0 }
      else r.1.start_intermission now
  else e

/-- `GameEngine.update`: intermission timer handling, the AI block, the ball
advance, scoring, and game/series end. -/
def GameEngine.update (e : GameEngine) (dt : ℝ) (now : ℤ)
    (o : UpdateOracle) : GameEngine :=
  if e.state = STATE_SERIES_INTERMISSION then
    match e.intermission_start_ms with
    | some start =>
      if now - start ≥ e.intermission_ms then
        e.reset_game o.reset_angle o.reset_choice
      else e
    | none => e
  else if e.state ≠ STATE_PLAYING then e
  else
    let e := e.ai_section dt now o
    let e := { e with ball := e.ball.advance dt e.player e.ai }
    let e := e.score_section o
    e.game_end_section now

/-- Player paddle as `GameEngine.__init__` builds it (field 800 by 600). -/
def playerP : Paddle := { x := 10, y := 250, width := 10, height := 100, speed := 420 }

/-- AI paddle as `GameEngine.__init__` builds it, with the competitive speed
320 set at the end of the constructor. -/
def aiP : Paddle := { x := 780, y := 250, width := 10, height := 100, speed := 320 }

/-- A paddle far above the screen whose tracked ball sits inside the 6px
deadzone: `auto_track` then does not move and does not clamp. -/
def paddleC3 : Paddle := { x := 10, y := -500, width := 10, height := 100, speed := 420 }

/-- A ball whose center (at -450) coincides with `paddleC3`'s center. -/
def ballC3 : Ball :=
  { spawn_x := 400, spawn_y := 300, x := 400, y := -455, width := 10, height := 10,
    screen_width := 800, screen_height := 600, base_speed := 360, max_speed := 840,
    speed_increase := 1.06, vx := 360, vy := 0 }

/-- A paddle taller (700) than the 600px screen: the clamp `max(0, min(y, screen_height - height))`
then cannot reach the claimed interval. -/
def paddleC3b : Paddle := { x := 10, y := 0, width := 10, height := 700, speed := 420 }

/-- A game ball in open field moving right at the base speed 360 px/s. -/
def ballC5 : Ball :=
  { spawn_x := 400, spawn_y := 300, x := 100, y := 300, width := 10, height := 10,
    screen_width := 800, screen_height := 600, base_speed := 360, max_speed := 840,
    speed_increase := 1.06, vx := 360, vy := 0 }

/-- A game ball at mid-field moving right at 360 px/s, used for the negative-dt
run. -/
def ballC9 : Ball :=
  { spawn_x := 400, spawn_y := 300, x := 400, y := 300, width := 10, height := 10,
    screen_width := 800, screen_height := 600, base_speed := 360, max_speed := 840,
    speed_increase := 1.06, vx := 360, vy := 0 }

/-- A game ball one sub-step short of the right paddle, at the maximum speed
840 px/s, dead level with the paddle center. -/
def ballC2 : Ball :=
  { spawn_x := 400, spawn_y := 300, x := 767, y := 295, width := 10, height := 10,
    screen_width := 800, screen_height := 600, base_speed := 360, max_speed := 840,
    speed_increase := 1.06, vx := 840, vy := 0 }

/-- The end-to-end scenario ball: at mid-field, moving right at 360 px/s,
level with the right paddle's vertical center (`rel = 0`). -/
def ballC6 : Ball :=
  { spawn_x := 400, spawn_y := 300, x := 400, y := 295, width := 10, height := 10,
    screen_width := 800, screen_height := 600, base_speed := 360, max_speed := 840,
    speed_increase := 1.06, vx := 360, vy := 0 }

/-- The mirror scenario ball: moving left at 360 px/s toward the player's
paddle at x = 10. -/
def ballC6L : Ball :=
  { spawn_x := 400, spawn_y := 300, x := 400, y := 295, width := 10, height := 10,
    screen_width := 800, screen_height := 600, base_speed := 360, max_speed := 840,
    speed_increase := 1.06, vx := -360, vy := 0 }

/-- A baseline engine state during an active best-of-3 series, mid-play, as
the constructor would have produced it (ball at mid-field moving right). -/
def engine0 : GameEngine :=
  { width := 800, height := 600, paddle_width := 10, paddle_height := 100,
    player := playerP, ai := aiP, ball := ballC9,
    points_to_win_game := 5, series_active := true, series_best := 3,
    series_games_to_win := 2, series_player_wins := 0, series_ai_wins := 0,
    series_winner := none, player_score := 0, ai_score := 0,
    game_winner := none, last_game_winner := none,
    menu_options := ["Best of 3", "Best of 5", "Best of 7", "Exit"],
    menu_index := 0, menu_context := MENU_POST_SERIES, move_dir := 0,
    state := STATE_PLAYING, request_quit := false,
    intermission_start_ms := none, intermission_ms := 1100,
    ai_deadzone := 14, ai_reaction_ms := 110, ai_last_update_ms := 1000,
    ai_move_dir := 0, ai_center_bias := 0.22 }

/-- A neutral oracle: both random_chance draws fail, serve angle 0, sign +1. -/
def o0 : UpdateOracle := { u1 := 1, u2 := 1, reset_angle := 0, reset_choice := 1 }

/-- A ball that has crossed the right boundary (x = 900 > 800). -/
def ball8 : Ball :=
  { spawn_x := 400, spawn_y := 300, x := 900, y := 300, width := 10, height := 10,
    screen_width := 800, screen_height := 600, base_speed := 360, max_speed := 840,
    speed_increase := 1.06, vx := 360, vy := 0 }

/-- The result of resetting `ball8` with serve direction -1 at angle 0. -/
def ball8r : Ball :=
  { spawn_x := 400, spawn_y := 300, x := 395, y := 295, width := 10, height := 10,
    screen_width := 800, screen_height := 600, base_speed := 360, max_speed := 840,
    speed_increase := 1.06, vx := -360, vy := 0 }

/-- Series 1-0 for the player, game score 4-0, ball out right: the player is
about to win the point, the game, and with it the best-of-3 series. -/
def engine8a : GameEngine :=
  { engine0 with ball := ball8, player_score := 4, series_player_wins := 1 }

/-- Series 0-1 (AI leads), game score 4-0, ball out right: the player is about
to win the game, levelling the series 1-1. -/
def engine8b : GameEngine :=
  { engine0 with ball := ball8, player_score := 4, series_ai_wins := 1 }

/-- An intermission state at series 1-1 with stale per-game scores. -/
def engine8c : GameEngine :=
  { engine0 with
    state := STATE_SERIES_INTERMISSION
    intermission_start_ms := some 1000
    player_score := 3
    ai_score := 2
    series_player_wins := 1
    series_ai_wins := 1 }

/-- A ball creeping right (vx = 1) well above the AI paddle's center. -/
def ball10a : Ball :=
  { spawn_x := 400, spawn_y := 300, x := 400, y := 100, width := 10, height := 10,
    screen_width := 800, screen_height := 600, base_speed := 360, max_speed := 840,
    speed_increase := 1.06, vx := 1, vy := 0 }

/-- A ball creeping left (vx = -1) at mid-field. -/
def ball10b : Ball :=
  { spawn_x := 400, spawn_y := 300, x := 400, y := 300, width := 10, height := 10,
    screen_width := 800, screen_height := 600, base_speed := 360, max_speed := 840,
    speed_increase := 1.06, vx := -1, vy := 0 }

/-- The AI paddle parked above center (y = 200). -/
def paddle10 : Paddle := { x := 780, y := 200, width := 10, height := 100, speed := 320 }

/-- The AI paddle after one upward 1/10s move from y = 250. -/
def paddleA : Paddle := { x := 780, y := 218, width := 10, height := 100, speed := 320 }

/-- The AI paddle after one downward 1/10s move from y = 200. -/
def paddleB : Paddle := { x := 780, y := 232, width := 10, height := 100, speed := 320 }

/-- PLAYING state whose AI reaction window has elapsed, ball `ball10a`. -/
def engine10a : GameEngine :=
  { engine0 with ball := ball10a, ai_last_update_ms := 0 }

/-- PLAYING state inside the AI reaction window, ball moving away, AI parked
above center at y = 200. -/
def engine10b : GameEngine :=
  { engine0 with ball := ball10b, ai := paddle10 }

/-- Oracle whose 0.03-draw misses (u1 = 1/2). -/
def oHi : UpdateOracle := { u1 := 1/2, u2 := 1/2, reset_angle := 0, reset_choice := 1 }

/-- Oracle whose 0.03-draw hits (u1 = 1/100 < 0.03). -/
def oLo : UpdateOracle := { u1 := 1/100, u2 := 1/2, reset_angle := 0, reset_choice := 1 }

/-- Oracle whose center-drift draw hits (u2 = 1/10 < 0.22). -/
def oDrift : UpdateOracle := { u1 := 1, u2 := 1/10, reset_angle := 0, reset_choice := 1 }

/-- Oracle whose center-drift draw misses (u2 = 9/10). -/
def oStay : UpdateOracle := { u1 := 1, u2 := 9/10, reset_angle := 0, reset_choice := 1 }

/-- A ball whose right edge has crossed the left field boundary. -/
def ballC4 : Ball :=
  { spawn_x := 400, spawn_y := 300, x := -20, y := 300, width := 10, height := 10,
    screen_width := 800, screen_height := 600, base_speed := 360, max_speed := 840,
    speed_increase := 1.06, vx := -360, vy := 0 }

/-- Engine state right after the ball exited on the player's (left) side. -/
def engineC4 : GameEngine := { engine0 with ball := ballC4 }

end

/-- Evaluation rule for `pyint` on a nonnegative concrete real. -/
theorem pyint_eval_nonneg (x : ℝ) (n : ℤ) (h0 : 0 ≤ x) (h1 : (n : ℝ) ≤ x)
    (h2 : x < n + 1) : pyint x = n := by
  unfold pyint
  rw [if_pos h0]
  exact Int.floor_eq_iff.mpr ⟨h1, h2⟩

/-- Evaluation rule for `pyint` on a negative concrete real (truncation toward
zero is the ceiling there). -/
theorem pyint_eval_neg (x : ℝ) (n : ℤ) (h0 : x < 0) (h1 : x ≤ (n : ℝ))
    (h2 : (n : ℝ) - 1 < x) : pyint x = n := by
  unfold pyint
  rw [if_neg (not_le.mpr h0)]
  exact Int.ceil_eq_iff.mpr ⟨h2, h1⟩

/-- `Ball.advance` with a single sub-step is one loop iteration. -/
theorem Ball.advance_one (b : Ball) (dt : ℝ) (player ai : Paddle)
    (hsteps : b.advance_steps dt = 1) :
    b.advance dt player ai = Ball.advance_substep player ai (b.step_dt dt) b := by
  simp only [Ball.advance, hsteps, Int.toNat_one, Function.iterate_one]

/-- A sub-step that triggers neither a wall nor a paddle collision is a pure
translation. -/
theorem Ball.advance_substep_free (player ai : Paddle) (sdt : ℝ) (b : Ball)
    (h1 : ¬ (b.y + b.vy * sdt ≤ 0))
    (h2 : ¬ (b.y + b.vy * sdt + b.height ≥ b.screen_height))
    (h3 : ¬ (Rect.colliderect
        { x := pyint (b.x + b.vx * sdt), y := pyint (b.y + b.vy * sdt),
          w := pyint b.width, h := pyint b.height } player.rect ∧ b.vx < 0))
    (h4 : ¬ (Rect.colliderect
        { x := pyint (b.x + b.vx * sdt), y := pyint (b.y + b.vy * sdt),
          w := pyint b.width, h := pyint b.height } ai.rect ∧ b.vx > 0)) :
    Ball.advance_substep player ai sdt b =
      { b with x := b.x + b.vx * sdt, y := b.y + b.vy * sdt } := by
  simp only [Ball.advance_substep, Ball.wall_bounce, Ball.rect]
  rw [if_neg h1, if_neg h2, if_neg h3, if_neg h4]

/-- The AI paddle's integer-snapped rect. -/
theorem aiP_rect : aiP.rect = { x := 780, y := 250, w := 10, h := 100 } := by
  unfold Paddle.rect aiP
  rw [pyint_eval_nonneg 780 780 (by norm_num) (by norm_num) (by norm_num),
    pyint_eval_nonneg 250 250 (by norm_num) (by norm_num) (by norm_num),
    pyint_eval_nonneg 10 10 (by norm_num) (by norm_num) (by norm_num),
    pyint_eval_nonneg 100 100 (by norm_num) (by norm_num) (by norm_num)]

/-- The player paddle's integer-snapped rect. -/
theorem playerP_rect : playerP.rect = { x := 10, y := 250, w := 10, h := 100 } := by
  unfold Paddle.rect playerP
  rw [pyint_eval_nonneg 10 10 (by norm_num) (by norm_num) (by norm_num),
    pyint_eval_nonneg 250 250 (by norm_num) (by norm_num) (by norm_num),
    pyint_eval_nonneg 100 100 (by norm_num) (by norm_num) (by norm_num)]

/-- `max(abs(vx), abs(vy))` for `ballC5`. -/
theorem ballC5_max_comp : ballC5.max_comp = 360 := by
  unfold Ball.max_comp ballC5
  rw [show |(360 : ℝ)| = 360 from abs_of_nonneg (by norm_num), abs_zero]
  exact max_eq_left (by norm_num)

/-- At dt = 1/50 (a 50fps frame) the sub-step count for `ballC5` is 1, because
`max_comp * dt / 4 = 1.8` truncates to 1. -/
theorem ballC5_steps : ballC5.advance_steps (1/50) = 1 := by
  unfold Ball.advance_steps
  rw [ballC5_max_comp,
    pyint_eval_nonneg (360 * (1/50) / 4) 1 (by norm_num) (by norm_num) (by norm_num)]
  exact max_self 1

/-- The sub-step duration for `ballC5` at dt = 1/50. -/
theorem ballC5_sdt : ballC5.step_dt (1/50) = 1/50 := by
  unfold Ball.step_dt
  rw [ballC5_steps]
  norm_num

/-- Full evaluation of `Ball.advance` for `ballC5` at dt = 1/50: one pure
7.2px translation, no collision. -/
theorem ballC5_advance :
    Ball.advance ballC5 (1/50) playerP aiP = { ballC5 with x := 536/5, y := 300 } := by
  rw [Ball.advance_one _ _ _ _ ballC5_steps, ballC5_sdt,
    Ball.advance_substep_free playerP aiP (1/50) ballC5
      (by norm_num [ballC5])
      (by norm_num [ballC5])
      (fun h => absurd h.2 (by norm_num [ballC5]))
      (fun h => by
        have hc := h.1
        rw [aiP_rect,
          pyint_eval_nonneg (ballC5.x + ballC5.vx * (1/50)) 107 (by norm_num [ballC5])
            (by norm_num [ballC5]) (by norm_num [ballC5]),
          pyint_eval_nonneg ballC5.width 10 (by norm_num [ballC5])
            (by norm_num [ballC5]) (by norm_num [ballC5])] at hc
        exact absurd hc.2.1 (by norm_num))]
  norm_num [ballC5]

/-- C5 counterexample.  The claim asserts no sub-step moves the ball more than
about 4 pixels.  At the game's base speed 360 px/s with a 50fps frame
(dt = 0.02), `max_comp * dt / 4 = 1.8` truncates to a single sub-step, which
translates the ball 7.2 pixels along x, well above 4. -/
theorem c5_substep_counterexample :
    Ball.advance_steps ballC5 (1/50) = 1 ∧
      (Ball.advance ballC5 (1/50) playerP aiP).x - ballC5.x = 36/5 ∧
      (4 : ℝ) < 36/5 := by
  refine ⟨ballC5_steps, ?_, by norm_num⟩
  rw [ballC5_advance]
  norm_num [ballC5]

/-- C5 amended.  For positive dt the sub-step count is exactly
`max(1, floor(max(|vx|,|vy|) * dt / 4))` with `step_dt = dt / steps`, as the
claim's formula states, but the guaranteed per-axis bound of a single sub-step
is strictly below 8 pixels, not 4: the quantity `4x/max(1,floor(x))` reaches
values arbitrarily close to 8 as `x` approaches 2. -/
theorem c5_amended_substep_bound (b : Ball) (dt : ℝ) (hdt : 0 < dt) :
    b.advance_steps dt = max 1 ⌊b.max_comp * dt / 4⌋ ∧
      b.step_dt dt = dt / ((max 1 ⌊b.max_comp * dt / 4⌋ : ℤ) : ℝ) ∧
      |b.vx| * b.step_dt dt < 8 ∧ |b.vy| * b.step_dt dt < 8 := by
  have hm : 0 ≤ b.max_comp := le_trans (abs_nonneg _) (le_max_left _ _)
  have harg : 0 ≤ b.max_comp * dt / 4 :=
    div_nonneg (mul_nonneg hm hdt.le) (by norm_num)
  have hsteps : b.advance_steps dt = max 1 ⌊b.max_comp * dt / 4⌋ := by
    unfold Ball.advance_steps pyint
    rw [if_pos harg]
  have hsR : (1 : ℝ) ≤ ((max 1 ⌊b.max_comp * dt / 4⌋ : ℤ) : ℝ) := by
    exact_mod_cast le_max_left 1 ⌊b.max_comp * dt / 4⌋
  have hspos : (0 : ℝ) < ((max 1 ⌊b.max_comp * dt / 4⌋ : ℤ) : ℝ) :=
    lt_of_lt_of_le zero_lt_one hsR
  have hb4 : b.max_comp * dt < 8 * ((max 1 ⌊b.max_comp * dt / 4⌋ : ℤ) : ℝ) := by
    rcases le_or_lt 2 (b.max_comp * dt / 4) with h2 | h2
    · have hfl : (2 : ℤ) ≤ ⌊b.max_comp * dt / 4⌋ := Int.le_floor.mpr (by exact_mod_cast h2)
      have hmax : max 1 ⌊b.max_comp * dt / 4⌋ = ⌊b.max_comp * dt / 4⌋ :=
        max_eq_right (by omega)
      rw [hmax]
      have hlow : b.max_comp * dt / 4 - 1 < (⌊b.max_comp * dt / 4⌋ : ℝ) :=
        Int.sub_one_lt_floor _
      linarith
    · linarith
  have key : ∀ v : ℝ, |v| ≤ b.max_comp → |v| * b.step_dt dt < 8 := by
    intro v hv
    unfold Ball.step_dt
    rw [hsteps, mul_div_assoc', div_lt_iff hspos]
    have h1 : |v| * dt ≤ b.max_comp * dt := mul_le_mul_of_nonneg_right hv hdt.le
    linarith
  refine ⟨hsteps, ?_, key _ (le_max_left _ _), key _ (le_max_right _ _)⟩
  unfold Ball.step_dt
  rw [hsteps]

/-- Witness for C5 amended at `ballC5`, dt = 1/50. -/
theorem c5_amended_substep_bound_witness :
    ballC5.advance_steps (1/50) = max 1 ⌊ballC5.max_comp * (1/50) / 4⌋ ∧
      ballC5.step_dt (1/50) = (1/50) / ((max 1 ⌊ballC5.max_comp * (1/50) / 4⌋ : ℤ) : ℝ) ∧
      |ballC5.vx| * ballC5.step_dt (1/50) < 8 ∧ |ballC5.vy| * ballC5.step_dt (1/50) < 8 :=
  c5_amended_substep_bound ballC5 (1/50) (by norm_num)

/-- `max(abs(vx), abs(vy))` for `ballC9`. -/
theorem ballC9_max_comp : ballC9.max_comp = 360 := by
  unfold Ball.max_comp ballC9
  rw [show |(360 : ℝ)| = 360 from abs_of_nonneg (by norm_num), abs_zero]
  exact max_eq_left (by norm_num)

/-- At dt = -1 the sub-step count for `ballC9` clamps to 1. -/
theorem ballC9_steps : ballC9.advance_steps (-1) = 1 := by
  unfold Ball.advance_steps
  rw [ballC9_max_comp,
    pyint_eval_neg (360 * (-1) / 4) (-90) (by norm_num) (by norm_num) (by norm_num)]
  exact max_eq_left (by norm_num)

/-- The sub-step duration for `ballC9` at dt = -1 is the full negative dt. -/
theorem ballC9_sdt : ballC9.step_dt (-1) = -1 := by
  unfold Ball.step_dt
  rw [ballC9_steps]
  norm_num

/-- Full evaluation of `Ball.advance` for `ballC9` at dt = -1: the ball is
translated backward 360 pixels along its velocity. -/
theorem ballC9_advance :
    Ball.advance ballC9 (-1) playerP aiP = { ballC9 with x := 40, y := 300 } := by
  rw [Ball.advance_one _ _ _ _ ballC9_steps, ballC9_sdt,
    Ball.advance_substep_free playerP aiP (-1) ballC9
      (by norm_num [ballC9])
      (by norm_num [ballC9])
      (fun h => absurd h.2 (by norm_num [ballC9]))
      (fun h => by
        have hc := h.1
        rw [aiP_rect,
          pyint_eval_nonneg (ballC9.x + ballC9.vx * (-1)) 40 (by norm_num [ballC9])
            (by norm_num [ballC9]) (by norm_num [ballC9]),
          pyint_eval_nonneg ballC9.width 10 (by norm_num [ballC9])
            (by norm_num [ballC9]) (by norm_num [ballC9])] at hc
        exact absurd hc.2.1 (by norm_num))]
  norm_num [ballC9]

/-- C9 counterexample.  The claim asserts a negative dt is defensively clamped
or ignored and in particular does not move the ball backward along its
velocity.  At dt = -1 the code clamps the step count to 1 but keeps
`step_dt = dt = -1`, so a ball moving right at 360 px/s is translated 360
pixels to the left. -/
theorem c9_negative_dt_counterexample :
    ballC9.vx > 0 ∧ (Ball.advance ballC9 (-1) playerP aiP).x = 40 ∧
      (Ball.advance ballC9 (-1) playerP aiP).x < ballC9.x := by
  refine ⟨by norm_num [ballC9], ?_, ?_⟩ <;> rw [ballC9_advance] <;> norm_num [ballC9]

/-- C9 amended.  `Ball.advance` does not raise on a negative dt (every
operation is total and the sub-step count is clamped to at least 1), but the
negative dt is propagated rather than clamped or ignored: the single sub-step
applies the full negative dt, so positions move backward along velocities. -/
theorem c9_amended_negative_dt (b : Ball) (dt : ℝ) (hdt : dt < 0) :
    b.advance_steps dt = 1 ∧ b.step_dt dt = dt := by
  have hm : 0 ≤ b.max_comp := le_trans (abs_nonneg _) (le_max_left _ _)
  have harg : b.max_comp * dt / 4 ≤ 0 := by
    have hmd : b.max_comp * dt ≤ 0 := mul_nonpos_iff.mpr (Or.inl ⟨hm, hdt.le⟩)
    linarith
  have hsteps : b.advance_steps dt = 1 := by
    unfold Ball.advance_steps
    have hz : pyint (b.max_comp * dt / 4) ≤ 0 := by
      unfold pyint
      split_ifs with h0
      · calc ⌊b.max_comp * dt / 4⌋ ≤ ⌊(0 : ℝ)⌋ := Int.floor_le_floor harg
          _ = 0 := Int.floor_zero
      · calc ⌈b.max_comp * dt / 4⌉ ≤ ⌈(0 : ℝ)⌉ := Int.ceil_le_ceil harg
          _ = 0 := Int.ceil_zero
    exact max_eq_left (hz.trans (by norm_num))
  refine ⟨hsteps, ?_⟩
  unfold Ball.step_dt
  rw [hsteps]
  norm_num

/-- Witness for C9 amended at `ballC9`, dt = -1. -/
theorem c9_amended_negative_dt_witness :
    ballC9.advance_steps (-1) = 1 ∧ ballC9.step_dt (-1) = -1 :=
  c9_amended_negative_dt ballC9 (-1) (by norm_num)

/-- `math.copysign` squared is the squared magnitude, whatever the sign source. -/
theorem pycopysign_sq (m s : ℝ) : (pycopysign m s) ^ 2 = m ^ 2 := by
  unfold pycopysign
  split_ifs <;> rw [← sq_abs m] <;> ring

/-- `Ball._wall_bounce` preserves the squared velocity magnitude. -/
theorem wall_bounce_vsq (b : Ball) :
    b.wall_bounce.vx ^ 2 + b.wall_bounce.vy ^ 2 = b.vx ^ 2 + b.vy ^ 2 := by
  unfold Ball.wall_bounce
  split_ifs <;> dsimp only <;> ring

/-- `Ball._wall_bounce` does not touch the speed-limit fields. -/
theorem wall_bounce_consts (b : Ball) :
    b.wall_bounce.max_speed = b.max_speed ∧
      b.wall_bounce.speed_increase = b.speed_increase := by
  unfold Ball.wall_bounce
  split_ifs <;> exact ⟨rfl, rfl⟩

/-- After `Ball._paddle_bounce` the squared velocity magnitude is at most
`709200 = 840^2 + 60^2`: the computed speed is clamped to `max_speed ≤ 840`
before the components are formed, and the vertical floor can only replace the
vertical component by one of magnitude 60. -/
theorem paddle_bounce_vsq_le (b : Ball) (p : Paddle)
    (hms : b.max_speed ≤ 840) (hms0 : 0 ≤ b.max_speed) (hinc : 0 ≤ b.speed_increase) :
    (b.paddle_bounce p).vx ^ 2 + (b.paddle_bounce p).vy ^ 2 ≤ 709200 := by
  have main : ∀ od s θ w : ℝ, (od = -1 ∨ od = 1) → 0 ≤ s → s ≤ 840 →
      (od * s * Real.cos θ) ^ 2 +
        (if |s * Real.sin θ| < 60 then pycopysign 60 w else s * Real.sin θ) ^ 2
        ≤ 709200 := by
    intro od s θ w hod hs0 hs
    have hod2 : od ^ 2 = 1 := by rcases hod with h | h <;> rw [h] <;> norm_num
    have h1 : s * s ≤ 840 * 840 := mul_le_mul hs hs hs0 (by norm_num)
    have hsq : s ^ 2 ≤ 705600 := by nlinarith [h1]
    have hc2 : Real.cos θ ^ 2 ≤ 1 := Real.cos_sq_le_one θ
    have hcs : Real.sin θ ^ 2 + Real.cos θ ^ 2 = 1 := Real.sin_sq_add_cos_sq θ
    have hvx : (od * s * Real.cos θ) ^ 2 = s ^ 2 * Real.cos θ ^ 2 := by
      rw [mul_pow, mul_pow, hod2, one_mul]
    split_ifs with h
    · rw [pycopysign_sq, hvx]
      nlinarith [sq_nonneg s, sq_nonneg (Real.cos θ)]
    · rw [hvx]
      nlinarith [sq_nonneg s, sq_nonneg (Real.sin θ), sq_nonneg (Real.cos θ)]
  unfold Ball.paddle_bounce
  by_cases hin : b.vx > 0
  · simp only [if_pos hin, Ball.speed, pyhypot]
    exact main _ _ _ _ (Or.inl rfl)
      (le_min (mul_nonneg (Real.sqrt_nonneg _) hinc) hms0)
      ((min_le_right _ _).trans hms)
  · simp only [if_neg hin, Ball.speed, pyhypot]
    exact main _ _ _ _ (Or.inr rfl)
      (le_min (mul_nonneg (Real.sqrt_nonneg _) hinc) hms0)
      ((min_le_right _ _).trans hms)

/-- `Ball._paddle_bounce` does not touch the speed-limit fields. -/
theorem paddle_bounce_consts (b : Ball) (p : Paddle) :
    (b.paddle_bounce p).max_speed = b.max_speed ∧
      (b.paddle_bounce p).speed_increase = b.speed_increase := by
  simp only [Ball.paddle_bounce]
  split_ifs <;> exact ⟨rfl, rfl⟩

/-- One `Ball.advance` sub-step keeps the squared velocity magnitude at or
below `709200`. -/
theorem advance_substep_vsq_le (player ai : Paddle) (sdt : ℝ) (b : Ball)
    (hms : b.max_speed ≤ 840) (hms0 : 0 ≤ b.max_speed) (hinc : 0 ≤ b.speed_increase)
    (hb : b.vx ^ 2 + b.vy ^ 2 ≤ 709200) :
    (Ball.advance_substep player ai sdt b).vx ^ 2 +
      (Ball.advance_substep player ai sdt b).vy ^ 2 ≤ 709200 := by
  simp only [Ball.advance_substep]
  have hw := wall_bounce_consts { b with x := b.x + b.vx * sdt, y := b.y + b.vy * sdt }
  split_ifs with h1 h2
  · refine paddle_bounce_vsq_le _ _ ?_ ?_ ?_
    · rw [hw.1]; exact hms
    · rw [hw.1]; exact hms0
    · rw [hw.2]; exact hinc
  · refine paddle_bounce_vsq_le _ _ ?_ ?_ ?_
    · rw [hw.1]; exact hms
    · rw [hw.1]; exact hms0
    · rw [hw.2]; exact hinc
  · rw [wall_bounce_vsq]
    exact hb

/-- `Ball.advance_substep` does not touch the speed-limit fields. -/
theorem advance_substep_consts (player ai : Paddle) (sdt : ℝ) (b : Ball) :
    (Ball.advance_substep player ai sdt b).max_speed = b.max_speed ∧
      (Ball.advance_substep player ai sdt b).speed_increase = b.speed_increase := by
  simp only [Ball.advance_substep]
  have hw := wall_bounce_consts { b with x := b.x + b.vx * sdt, y := b.y + b.vy * sdt }
  have hpb := paddle_bounce_consts
    (Ball.wall_bounce { b with x := b.x + b.vx * sdt, y := b.y + b.vy * sdt }) player
  have hpa := paddle_bounce_consts
    (Ball.wall_bounce { b with x := b.x + b.vx * sdt, y := b.y + b.vy * sdt }) ai
  split_ifs with h1 h2
  · exact ⟨hpb.1.trans hw.1, hpb.2.trans hw.2⟩
  · exact ⟨hpa.1.trans hw.1, hpa.2.trans hw.2⟩
  · exact ⟨hw.1, hw.2⟩

/-- Any number of `Ball.advance` sub-steps keeps the squared velocity
magnitude at or below `709200`. -/
theorem iterate_substep_vsq_le (player ai : Paddle) (sdt : ℝ) (n : ℕ) (b : Ball)
    (hms : b.max_speed ≤ 840) (hms0 : 0 ≤ b.max_speed) (hinc : 0 ≤ b.speed_increase)
    (hb : b.vx ^ 2 + b.vy ^ 2 ≤ 709200) :
    ((Ball.advance_substep player ai sdt)^[n] b).vx ^ 2 +
      ((Ball.advance_substep player ai sdt)^[n] b).vy ^ 2 ≤ 709200 := by
  induction n generalizing b with
  | zero => simpa using hb
  | succ n ih =>
    rw [Function.iterate_succ_apply]
    have hc := advance_substep_consts player ai sdt b
    refine ih _ ?_ ?_ ?_ ?_
    · rw [hc.1]; exact hms
    · rw [hc.1]; exact hms0
    · rw [hc.2]; exact hinc
    · exact advance_substep_vsq_le player ai sdt b hms hms0 hinc hb

/-- C2 amended.  The true invariant of `Ball.advance` is the slightly larger
bound `speed ≤ sqrt(709200) = sqrt(840^2 + 60^2)` (about 842.14 px/s): the
paddle bounce clamps the computed speed to `max_speed = 840`, but the
60 px/s vertical floor applied afterwards can push the magnitude up to
`sqrt(840^2 + 60^2)`.  That bound is preserved by `advance` for every dt and
every number of sub-steps and bounces. -/
theorem c2_amended_speed_bound (b : Ball) (dt : ℝ) (player ai : Paddle)
    (hms : b.max_speed ≤ 840) (hms0 : 0 ≤ b.max_speed)
    (hinc : 0 ≤ b.speed_increase)
    (h : b.speed ≤ Real.sqrt 709200) :
    (b.advance dt player ai).speed ≤ Real.sqrt 709200 := by
  have hb : b.vx ^ 2 + b.vy ^ 2 ≤ 709200 := by
    unfold Ball.speed pyhypot at h
    exact (Real.sqrt_le_sqrt_iff (by norm_num)).mp h
  simp only [Ball.advance, Ball.speed, pyhypot]
  exact Real.sqrt_le_sqrt
    (iterate_substep_vsq_le player ai (b.step_dt dt) ((b.advance_steps dt).toNat)
      b hms hms0 hinc hb)

/-- Witness for C2 amended: the game ball `ballC9` (360 px/s) over one 60fps
frame. -/
theorem c2_amended_speed_bound_witness :
    Ball.speed ballC9 ≤ Real.sqrt 709200 ∧
      (ballC9.advance (1/60) playerP aiP).speed ≤ Real.sqrt 709200 := by
  have hsp : Ball.speed ballC9 ≤ Real.sqrt 709200 := by
    unfold Ball.speed pyhypot
    exact Real.sqrt_le_sqrt (by norm_num [ballC9])
  exact ⟨hsp, c2_amended_speed_bound ballC9 (1/60) playerP aiP
    (by norm_num [ballC9]) (by norm_num [ballC9]) (by norm_num [ballC9]) hsp⟩

/-- A sub-step whose moved position collides with the AI paddle while moving
right bounces off it. -/
theorem Ball.advance_substep_hit_ai (player ai : Paddle) (sdt : ℝ) (b : Ball)
    (h1 : ¬ (b.y + b.vy * sdt ≤ 0))
    (h2 : ¬ (b.y + b.vy * sdt + b.height ≥ b.screen_height))
    (h3 : ¬ (Rect.colliderect
        { x := pyint (b.x + b.vx * sdt), y := pyint (b.y + b.vy * sdt),
          w := pyint b.width, h := pyint b.height } player.rect ∧ b.vx < 0))
    (h4 : Rect.colliderect
        { x := pyint (b.x + b.vx * sdt), y := pyint (b.y + b.vy * sdt),
          w := pyint b.width, h := pyint b.height } ai.rect ∧ b.vx > 0) :
    Ball.advance_substep player ai sdt b =
      Ball.paddle_bounce { b with x := b.x + b.vx * sdt, y := b.y + b.vy * sdt } ai := by
  simp only [Ball.advance_substep, Ball.wall_bounce, Ball.rect]
  rw [if_neg h1, if_neg h2, if_neg h3, if_pos h4]

/-- `max(abs(vx), abs(vy))` for `ballC2`. -/
theorem ballC2_max_comp : ballC2.max_comp = 840 := by
  unfold Ball.max_comp ballC2
  rw [show |(840 : ℝ)| = 840 from abs_of_nonneg (by norm_num), abs_zero]
  exact max_eq_left (by norm_num)

/-- At dt = 1/210 the sub-step count for `ballC2` is 1. -/
theorem ballC2_steps : ballC2.advance_steps (1/210) = 1 := by
  unfold Ball.advance_steps
  rw [ballC2_max_comp,
    pyint_eval_nonneg (840 * (1/210) / 4) 1 (by norm_num) (by norm_num) (by norm_num)]
  exact max_self 1

/-- The sub-step duration for `ballC2` at dt = 1/210. -/
theorem ballC2_sdt : ballC2.step_dt (1/210) = 1/210 := by
  unfold Ball.step_dt
  rw [ballC2_steps]
  norm_num

/-- Evaluation of the bounce of `ballC2` (at max speed, dead center) off the
AI paddle: the computed speed clamps to 840, the deflection angle is 0, and
the vertical floor then sets vy to 60. -/
theorem ballC2_bounce :
    Ball.paddle_bounce
        { ballC2 with x := ballC2.x + ballC2.vx * (1/210), y := ballC2.y + ballC2.vy * (1/210) }
        aiP =
      { ballC2 with x := 769, y := 295, vx := -840, vy := 60 } := by
  have h840 : Real.sqrt (705600 : ℝ) = 840 := by
    rw [show (705600 : ℝ) = 840 ^ 2 by norm_num, Real.sqrt_sq (by norm_num)]
  norm_num [ballC2, aiP, Ball.paddle_bounce, Ball.speed, pyhypot, Ball.center_y,
    Paddle.center_y, math_radians, pycopysign, min_def, max_def, h840,
    Real.cos_zero, Real.sin_zero,
    show |(60 : ℝ)| = 60 from abs_of_nonneg (by norm_num)]

/-- Full evaluation of `Ball.advance` for `ballC2` at dt = 1/210: one 4px
sub-step into the AI paddle, then the center bounce. -/
theorem ballC2_advance :
    Ball.advance ballC2 (1/210) playerP aiP =
      { ballC2 with x := 769, y := 295, vx := -840, vy := 60 } := by
  have h4 : Rect.colliderect
      { x := pyint (ballC2.x + ballC2.vx * (1/210)), y := pyint (ballC2.y + ballC2.vy * (1/210)),
        w := pyint ballC2.width, h := pyint ballC2.height } aiP.rect ∧ ballC2.vx > 0 := by
    constructor
    · rw [aiP_rect,
        pyint_eval_nonneg (ballC2.x + ballC2.vx * (1/210)) 771 (by norm_num [ballC2])
          (by norm_num [ballC2]) (by norm_num [ballC2]),
        pyint_eval_nonneg (ballC2.y + ballC2.vy * (1/210)) 295 (by norm_num [ballC2])
          (by norm_num [ballC2]) (by norm_num [ballC2]),
        pyint_eval_nonneg ballC2.width 10 (by norm_num [ballC2])
          (by norm_num [ballC2]) (by norm_num [ballC2]),
        pyint_eval_nonneg ballC2.height 10 (by norm_num [ballC2])
          (by norm_num [ballC2]) (by norm_num [ballC2])]
      exact ⟨by norm_num, by norm_num, by norm_num, by norm_num⟩
    · norm_num [ballC2]
  rw [Ball.advance_one _ _ _ _ ballC2_steps, ballC2_sdt,
    Ball.advance_substep_hit_ai playerP aiP (1/210) ballC2
      (by norm_num [ballC2])
      (by norm_num [ballC2])
      (fun h => absurd h.2 (by norm_num [ballC2]))
      h4,
    ballC2_bounce]

/-- C2 counterexample.  A reachable state at the claimed invariant bound
(speed exactly `max_speed = 840`) that strikes the AI paddle dead center:
after `Ball.advance` the velocity is `(-840, 60)`, whose magnitude
`sqrt(709200) = 842.14...` exceeds `max_speed`, because the 60 px/s vertical
floor is applied after the clamp to `max_speed`. -/
theorem c2_speed_exceeds_max_counterexample :
    Ball.speed ballC2 ≤ 840 ∧
      840 < Ball.speed (Ball.advance ballC2 (1/210) playerP aiP) := by
  constructor
  · unfold Ball.speed pyhypot
    rw [show ballC2.vx ^ 2 + ballC2.vy ^ 2 = (705600 : ℝ) by norm_num [ballC2],
      show Real.sqrt (705600 : ℝ) = 840 by
        rw [show (705600 : ℝ) = 840 ^ 2 by norm_num, Real.sqrt_sq (by norm_num)]]
  · rw [ballC2_advance]
    unfold Ball.speed pyhypot
    rw [show ({ ballC2 with x := 769, y := 295, vx := -840, vy := 60 } : Ball).vx ^ 2 +
        ({ ballC2 with x := 769, y := 295, vx := -840, vy := 60 } : Ball).vy ^ 2 =
        (709200 : ℝ) by norm_num [ballC2]]
    exact (Real.lt_sqrt (by norm_num)).mpr (by norm_num)

/-- Evaluation of the end-to-end scenario bounce: `ballC6` (360 px/s, rel = 0)
strikes the right paddle; speed becomes `360 * 1.06 = 381.6 = 1908/5`, the
deflection angle is 0, and the vertical floor sets vy to +60. -/
theorem ballC6_bounce :
    Ball.paddle_bounce ballC6 aiP = { ballC6 with x := 769, vx := -(1908/5), vy := 60 } := by
  have h360 : Real.sqrt (129600 : ℝ) = 360 := by
    rw [show (129600 : ℝ) = 360 ^ 2 by norm_num, Real.sqrt_sq (by norm_num)]
  norm_num [ballC6, aiP, Ball.paddle_bounce, Ball.speed, pyhypot, Ball.center_y,
    Paddle.center_y, math_radians, pycopysign, min_def, max_def, h360,
    Real.cos_zero, Real.sin_zero,
    show |(60 : ℝ)| = 60 from abs_of_nonneg (by norm_num)]

/-- Truncation toward zero is below the argument plus one, for either sign. -/
theorem pyint_lt_add_one (z : ℝ) : (pyint z : ℝ) < z + 1 := by
  unfold pyint
  split_ifs with h0
  · have := Int.floor_le z
    linarith
  · exact Int.ceil_lt_add_one z

/-- Truncation toward zero never exceeds a nonnegative argument. -/
theorem pyint_le_self (z : ℝ) (h : 0 ≤ z) : (pyint z : ℝ) ≤ z := by
  unfold pyint
  rw [if_pos h]
  exact Int.floor_le z

/-- Any integer real-below the argument is at most its truncation toward
zero. -/
theorem le_pyint (n : ℤ) (z : ℝ) (h : (n : ℝ) ≤ z) : n ≤ pyint z := by
  unfold pyint
  split_ifs with h0
  · exact Int.le_floor.mpr h
  · exact_mod_cast h.trans (Int.le_ceil z)

/-- C6.  For every paddle hit (either paddle, any real geometry with
nonnegative widths and positive paddle height) the outgoing horizontal
velocity points away from the struck paddle and the ball is repositioned
flush against the paddle's outer face plus a 1px epsilon, so its integer
rect no longer overlaps the struck paddle's rect (no re-collision right
after the bounce; re-triggering is further prevented by the direction gate
in `advance`).  Concretely, `ballC6` (moving right at 360 px/s, rel = 0)
leaves the right paddle with velocity `(-381.6, 60)` where
`381.6 = 360 * 1.06`. -/
theorem c6_paddle_bounce_away (b : Ball) (p : Paddle)
    (hh : 0 < p.height) (hms : 0 < b.max_speed) (hinc : 0 < b.speed_increase)
    (hbw : 0 ≤ b.width) (hpw : 0 ≤ p.width) :
    (b.vx > 0 →
      (b.paddle_bounce p).vx < 0 ∧ (b.paddle_bounce p).x = p.x - b.width - 1 ∧
        ¬ Rect.colliderect (b.paddle_bounce p).rect p.rect) ∧
    (b.vx < 0 →
      (b.paddle_bounce p).vx > 0 ∧ (b.paddle_bounce p).x = p.x + p.width + 1 ∧
        ¬ Rect.colliderect (b.paddle_bounce p).rect p.rect) ∧
    Ball.paddle_bounce ballC6 aiP = { ballC6 with x := 769, vx := -(1908/5), vy := 60 } := by
  have hpi := Real.pi_pos
  have hrad : math_radians 45 = Real.pi / 4 := by unfold math_radians; ring
  have hsqrt : ∀ hv : b.vx ≠ 0, 0 < Real.sqrt (b.vx ^ 2 + b.vy ^ 2) := by
    intro hv
    have h1 : 0 < b.vx ^ 2 := by positivity
    exact Real.sqrt_pos.mpr (by nlinarith [sq_nonneg b.vy])
  have hs : ∀ hv : b.vx ≠ 0,
      0 < min (Real.sqrt (b.vx ^ 2 + b.vy ^ 2) * b.speed_increase) b.max_speed := by
    intro hv
    exact lt_min (mul_pos (hsqrt hv) hinc) hms
  have hcos : ∀ r : ℝ, 0 < Real.cos (max (-1) (min 1 r) * (Real.pi / 4)) := by
    intro r
    have hrel1 : (-1 : ℝ) ≤ max (-1) (min 1 r) := le_max_left _ _
    have hrel2 : max (-1) (min 1 r) ≤ 1 := max_le (by norm_num) (min_le_left _ _)
    exact Real.cos_pos_of_mem_Ioo ⟨by nlinarith, by nlinarith⟩
  refine ⟨fun hin => ?_, fun hin => ?_, ballC6_bounce⟩
  · simp only [Ball.paddle_bounce, if_pos hin, Ball.speed, pyhypot, Ball.center_y,
      Paddle.center_y, Ball.rect, Paddle.rect, hrad]
    refine ⟨?_, ?_, ?_⟩
    · have h1 := hs (ne_of_gt hin)
      have h2 := hcos ((b.y + b.height / 2 - (p.y + p.height / 2)) / (p.height / 2))
      nlinarith [mul_pos h1 h2]
    · trivial
    · intro hc
      unfold Rect.colliderect at hc
      dsimp only at hc
      obtain ⟨-, h2, -, -⟩ := hc
      have i1 : (pyint (p.x - b.width - 1) : ℝ) < p.x - b.width := by
        have := pyint_lt_add_one (p.x - b.width - 1)
        linarith
      have i2 : (pyint b.width : ℝ) ≤ b.width := pyint_le_self b.width hbw
      have i3 : pyint (p.x - b.width - 1) + pyint b.width ≤ pyint p.x := by
        apply le_pyint
        push_cast
        linarith
      omega
  · simp only [Ball.paddle_bounce, if_neg (by simp only [gt_iff_lt, not_lt]; linarith : ¬ b.vx > 0),
      Ball.speed, pyhypot, Ball.center_y, Paddle.center_y, Ball.rect, Paddle.rect, hrad]
    refine ⟨?_, ?_, ?_⟩
    · have h1 := hs (ne_of_lt hin)
      have h2 := hcos ((b.y + b.height / 2 - (p.y + p.height / 2)) / (p.height / 2))
      nlinarith [mul_pos h1 h2]
    · trivial
    · intro hc
      unfold Rect.colliderect at hc
      dsimp only at hc
      obtain ⟨h1c, -, -, -⟩ := hc
      have i1 : (pyint p.x : ℝ) < p.x + 1 := pyint_lt_add_one p.x
      have i2 : (pyint p.width : ℝ) ≤ p.width := pyint_le_self p.width hpw
      have i3 : pyint p.x + pyint p.width ≤ pyint (p.x + p.width + 1) := by
        apply le_pyint
        push_cast
        linarith
      omega

/-- A reset with a forced direction `d` serves with the horizontal velocity
sign of `d`, for any serve angle within the drawn range. -/
theorem reset_vx_sign (b : Ball) (angle choice d : ℝ)
    (hbase : 0 < b.base_speed) (hang : |angle| ≤ 0.35) :
    (0 < d → 0 < (b.reset angle choice (some d)).vx) ∧
      (d < 0 → (b.reset angle choice (some d)).vx < 0) := by
  have hcos : 0 < Real.cos angle := by
    have h3 := Real.pi_gt_three
    have h1 : -0.35 ≤ angle := neg_le_of_abs_le hang
    have h2 : angle ≤ 0.35 := le_of_abs_le hang
    exact Real.cos_pos_of_mem_Ioo ⟨by norm_num; nlinarith, by norm_num; nlinarith⟩
  have hcp : pycopysign 1 choice = 1 ∨ pycopysign 1 choice = -1 := by
    unfold pycopysign
    split_ifs
    · right; norm_num
    · left; norm_num
  have habs : 0 < |b.base_speed * pycopysign 1 choice * Real.cos angle| := by
    apply abs_pos.mpr
    rcases hcp with h | h <;> rw [h] <;> nlinarith
  unfold Ball.reset Ball.set_initial_velocity
  dsimp only
  exact ⟨fun hd => mul_pos habs hd, fun hd => mul_neg_of_pos_of_neg habs hd⟩

/-- C4 amended.  In the PLAYING update's scoring block: a ball whose right
edge crossed the left boundary increments the AI score by exactly one (player
score unchanged) and is reset with serve direction +1, giving `vx > 0`;
symmetrically a ball past the right boundary increments the player score by
exactly one and is reset with direction -1, giving `vx < 0`.  The serve
therefore moves toward the side that just scored, away from the side that
conceded. -/
theorem c4_amended_scoring (e : GameEngine) (o : UpdateOracle)
    (hang : |o.reset_angle| ≤ 0.35) (hbase : 0 < e.ball.base_speed) :
    (e.ball.x + e.ball.width < 0 →
      (e.score_section o).ai_score = e.ai_score + 1 ∧
      (e.score_section o).player_score = e.player_score ∧
      (e.score_section o).ball = e.ball.reset o.reset_angle o.reset_choice (some 1) ∧
      0 < (e.score_section o).ball.vx) ∧
    (¬ (e.ball.x + e.ball.width < 0) → e.ball.x > (e.width : ℝ) →
      (e.score_section o).player_score = e.player_score + 1 ∧
      (e.score_section o).ai_score = e.ai_score ∧
      (e.score_section o).ball = e.ball.reset o.reset_angle o.reset_choice (some (-1)) ∧
      (e.score_section o).ball.vx < 0) := by
  constructor
  · intro hleft
    unfold GameEngine.score_section
    rw [if_pos hleft]
    refine ⟨rfl, rfl, rfl, ?_⟩
    exact (reset_vx_sign e.ball o.reset_angle o.reset_choice 1 hbase hang).1 (by norm_num)
  · intro hnl hright
    unfold GameEngine.score_section
    rw [if_neg hnl, if_pos hright]
    refine ⟨rfl, rfl, rfl, ?_⟩
    exact (reset_vx_sign e.ball o.reset_angle o.reset_choice (-1) hbase hang).2 (by norm_num)

/-- Witness for C4 amended at the concrete state `engineC4` (ball out on the
left) with the neutral oracle. -/
theorem c4_amended_scoring_witness :
    (engineC4.ball.x + engineC4.ball.width < 0 →
      (engineC4.score_section o0).ai_score = engineC4.ai_score + 1 ∧
      (engineC4.score_section o0).player_score = engineC4.player_score ∧
      (engineC4.score_section o0).ball =
        engineC4.ball.reset o0.reset_angle o0.reset_choice (some 1) ∧
      0 < (engineC4.score_section o0).ball.vx) ∧
    (¬ (engineC4.ball.x + engineC4.ball.width < 0) →
      engineC4.ball.x > (engineC4.width : ℝ) →
      (engineC4.score_section o0).player_score = engineC4.player_score + 1 ∧
      (engineC4.score_section o0).ai_score = engineC4.ai_score ∧
      (engineC4.score_section o0).ball =
        engineC4.ball.reset o0.reset_angle o0.reset_choice (some (-1)) ∧
      (engineC4.score_section o0).ball.vx < 0) :=
  c4_amended_scoring engineC4 o0 (by norm_num [o0]) (by norm_num [engineC4, engine0, ballC4])

/-- C4 counterexample for the direction gloss.  The ball exited on the left,
past the player's paddle, so the player's side conceded the point; the reset
serve has `vx > 0` and starts between the paddles, so it moves toward the AI
(the scorer) and away from the conceding player's side, contradicting the
claim that the serve is sent toward the side that just conceded. -/
theorem c4_serve_direction_counterexample :
    (engineC4.score_section o0).ai_score = engineC4.ai_score + 1 ∧
      0 < (engineC4.score_section o0).ball.vx ∧
      engineC4.player.x < (engineC4.score_section o0).ball.x ∧
      (engineC4.score_section o0).ball.x < engineC4.ai.x := by
  norm_num [GameEngine.score_section, Ball.reset, Ball.set_initial_velocity,
    pycopysign, engineC4, engine0, ballC4, playerP, aiP, o0,
    Real.cos_zero, Real.sin_zero]

/-- In the PLAYING state, `GameEngine.update` is the AI block, then the ball
advance, then scoring, then the game-end block. -/
theorem update_playing (e : GameEngine) (dt : ℝ) (now : ℤ) (o : UpdateOracle)
    (hst : e.state = STATE_PLAYING) :
    e.update dt now o =
      (GameEngine.score_section
        { e.ai_section dt now o with
          ball := (e.ai_section dt now o).ball.advance dt
            (e.ai_section dt now o).player (e.ai_section dt now o).ai }
        o).game_end_section now := by
  unfold GameEngine.update
  rw [if_neg (show ¬ e.state = STATE_SERIES_INTERMISSION from by rw [hst]; decide)]
  rw [if_neg (show ¬ e.state ≠ STATE_PLAYING from fun h => h hst)]

/-- In the INTERMISSION state with an elapsed timer, `GameEngine.update` is
exactly `_reset_game`. -/
theorem update_intermission_elapsed (e : GameEngine) (dt : ℝ) (now start : ℤ)
    (o : UpdateOracle)
    (hst : e.state = STATE_SERIES_INTERMISSION)
    (hsome : e.intermission_start_ms = some start)
    (hel : now - start ≥ e.intermission_ms) :
    e.update dt now o = e.reset_game o.reset_angle o.reset_choice := by
  unfold GameEngine.update
  rw [if_pos hst, hsome]
  dsimp only
  rw [if_pos hel]

/-- The AI block is the identity when the reaction window has not elapsed, the
ball is moving toward the AI, and the remembered direction is 0. -/
theorem ai_section_noop (e : GameEngine) (dt : ℝ) (now : ℤ) (o : UpdateOracle)
    (hwin : ¬ (now - e.ai_last_update_ms ≥ e.ai_reaction_ms))
    (hright : e.ball.vx > 0)
    (hdir : e.ai_move_dir = 0) :
    e.ai_section dt now o = e := by
  simp only [GameEngine.ai_section]
  rw [if_neg hwin]
  rw [if_neg (show ¬ (¬ e.ball.vx > 0 ∧ e.ai_move_dir = 0) from fun h => h.1 hright)]
  rw [if_neg (show ¬ e.ai_move_dir ≠ 0 from fun h => h hdir)]

/-- `max(abs(vx), abs(vy))` for `ball8`. -/
theorem ball8_max_comp : ball8.max_comp = 360 := by
  unfold Ball.max_comp ball8
  rw [show |(360 : ℝ)| = 360 from abs_of_nonneg (by norm_num), abs_zero]
  exact max_eq_left (by norm_num)

/-- At dt = 0 a single empty sub-step is taken. -/
theorem ball8_steps : ball8.advance_steps 0 = 1 := by
  unfold Ball.advance_steps
  rw [ball8_max_comp,
    pyint_eval_nonneg (360 * 0 / 4) 0 (by norm_num) (by norm_num) (by norm_num)]
  exact max_eq_left (by norm_num)

/-- The sub-step duration for `ball8` at dt = 0. -/
theorem ball8_sdt : ball8.step_dt 0 = 0 := by
  unfold Ball.step_dt
  rw [ball8_steps]
  norm_num

/-- `Ball.advance` at dt = 0 leaves `ball8` (out on the right, far from both
paddles) unchanged. -/
theorem ball8_advance : Ball.advance ball8 0 playerP aiP = ball8 := by
  rw [Ball.advance_one _ _ _ _ ball8_steps, ball8_sdt,
    Ball.advance_substep_free playerP aiP 0 ball8
      (by norm_num [ball8])
      (by norm_num [ball8])
      (fun h => absurd h.2 (by norm_num [ball8]))
      (fun h => by
        have hc := h.1
        unfold Rect.colliderect at hc
        rw [aiP_rect,
          pyint_eval_nonneg (ball8.x + ball8.vx * 0) 900 (by norm_num [ball8])
            (by norm_num [ball8]) (by norm_num [ball8])] at hc
        exact absurd hc.1 (by norm_num))]
  norm_num [ball8]

/-- C8.  (i) From series 1-0 and game score 4-0, the player's fifth point
ends the game and the series: `series_winner = "Player"`, state REPLAY_MENU
with post-series context.  (ii) From series 0-1, the same game win levels the
series 1-1 and the state transitions to INTERMISSION with no series winner.
(iii) An intermission whose 1100ms timer has elapsed resets both per-game
scores to 0 and returns to PLAYING.  (iv) A confirm key (Enter) during the
intermission does the same via `handle_input`. -/
theorem c8_series_transitions :
    ((engine8a.update 0 1000 o0).series_winner = some "Player" ∧
      (engine8a.update 0 1000 o0).state = STATE_REPLAY_MENU ∧
      (engine8a.update 0 1000 o0).menu_context = MENU_POST_SERIES) ∧
    ((engine8b.update 0 1000 o0).series_player_wins = 1 ∧
      (engine8b.update 0 1000 o0).series_ai_wins = 1 ∧
      (engine8b.update 0 1000 o0).series_winner = none ∧
      (engine8b.update 0 1000 o0).state = STATE_SERIES_INTERMISSION) ∧
    ((engine8c.update 0 2100 o0).state = STATE_PLAYING ∧
      (engine8c.update 0 2100 o0).player_score = 0 ∧
      (engine8c.update 0 2100 o0).ai_score = 0) ∧
    (((engine8c.handle_input [{ etype := KEYDOWN, key := K_RETURN }]
        (fun _ => false) (1/60) 0 1)).state = STATE_PLAYING ∧
      ((engine8c.handle_input [{ etype := KEYDOWN, key := K_RETURN }]
        (fun _ => false) (1/60) 0 1)).player_score = 0 ∧
      ((engine8c.handle_input [{ etype := KEYDOWN, key := K_RETURN }]
        (fun _ => false) (1/60) 0 1)).ai_score = 0) := by
  refine ⟨?_, ?_, ?_, ?_⟩
  · rw [update_playing engine8a 0 1000 o0 rfl,
      ai_section_noop engine8a 0 1000 o0 (by norm_num [engine8a, engine0])
        (by norm_num [engine8a, engine0, ball8]) (by norm_num [engine8a, engine0]),
      show engine8a.ball = ball8 from rfl, show engine8a.player = playerP from rfl,
      show engine8a.ai = aiP from rfl, ball8_advance,
      show ({ engine8a with ball := ball8 } : GameEngine) = engine8a from rfl]
    norm_num [GameEngine.score_section, GameEngine.game_end_section,
      GameEngine.end_series_if_needed, GameEngine.start_intermission,
      Ball.reset, Ball.set_initial_velocity, pycopysign,
      engine8a, engine0, ball8, o0, STATE_REPLAY_MENU, MENU_POST_SERIES,
      Real.cos_zero, Real.sin_zero]
  · rw [update_playing engine8b 0 1000 o0 rfl,
      ai_section_noop engine8b 0 1000 o0 (by norm_num [engine8b, engine0])
        (by norm_num [engine8b, engine0, ball8]) (by norm_num [engine8b, engine0]),
      show engine8b.ball = ball8 from rfl, show engine8b.player = playerP from rfl,
      show engine8b.ai = aiP from rfl, ball8_advance,
      show ({ engine8b with ball := ball8 } : GameEngine) = engine8b from rfl]
    norm_num [GameEngine.score_section, GameEngine.game_end_section,
      GameEngine.end_series_if_needed, GameEngine.start_intermission,
      Ball.reset, Ball.set_initial_velocity, pycopysign,
      engine8b, engine0, ball8, o0, STATE_SERIES_INTERMISSION,
      Real.cos_zero, Real.sin_zero]
  · rw [update_intermission_elapsed engine8c 0 2100 1000 o0 rfl rfl
      (by norm_num [engine8c, engine0])]
    norm_num [GameEngine.reset_game, GameEngine.center_paddles,
      Ball.reset, Ball.set_initial_velocity, pycopysign, engine8c, engine0, o0,
      STATE_PLAYING, Real.cos_zero, Real.sin_zero]
  · norm_num [GameEngine.handle_input, GameEngine.reset_game,
      GameEngine.center_paddles, Ball.reset, Ball.set_initial_velocity,
      pycopysign, engine8c, engine0, KEYDOWN, K_ESCAPE, K_q, K_RETURN, K_SPACE,
      K_r, K_w, K_s, STATE_PLAYING, STATE_SERIES_INTERMISSION,
      Real.cos_zero, Real.sin_zero,
      show ¬ ("INTERMISSION" = "PLAYING") from by decide]

/-- Integer rect of `paddle10`. -/
theorem paddle10_rect : paddle10.rect = { x := 780, y := 200, w := 10, h := 100 } := by
  unfold Paddle.rect paddle10
  rw [pyint_eval_nonneg 780 780 (by norm_num) (by norm_num) (by norm_num),
    pyint_eval_nonneg 200 200 (by norm_num) (by norm_num) (by norm_num),
    pyint_eval_nonneg 10 10 (by norm_num) (by norm_num) (by norm_num),
    pyint_eval_nonneg 100 100 (by norm_num) (by norm_num) (by norm_num)]

/-- Integer rect of `paddleA`. -/
theorem paddleA_rect : paddleA.rect = { x := 780, y := 218, w := 10, h := 100 } := by
  unfold Paddle.rect paddleA
  rw [pyint_eval_nonneg 780 780 (by norm_num) (by norm_num) (by norm_num),
    pyint_eval_nonneg 218 218 (by norm_num) (by norm_num) (by norm_num),
    pyint_eval_nonneg 10 10 (by norm_num) (by norm_num) (by norm_num),
    pyint_eval_nonneg 100 100 (by norm_num) (by norm_num) (by norm_num)]

/-- Integer rect of `paddleB`. -/
theorem paddleB_rect : paddleB.rect = { x := 780, y := 232, w := 10, h := 100 } := by
  unfold Paddle.rect paddleB
  rw [pyint_eval_nonneg 780 780 (by norm_num) (by norm_num) (by norm_num),
    pyint_eval_nonneg 232 232 (by norm_num) (by norm_num) (by norm_num),
    pyint_eval_nonneg 10 10 (by norm_num) (by norm_num) (by norm_num),
    pyint_eval_nonneg 100 100 (by norm_num) (by norm_num) (by norm_num)]

/-- `max(abs(vx), abs(vy))` for `ball10a`. -/
theorem ball10a_max_comp : ball10a.max_comp = 1 := by
  unfold Ball.max_comp ball10a
  rw [show |(1 : ℝ)| = 1 from abs_of_nonneg (by norm_num), abs_zero]
  exact max_eq_left (by norm_num)

/-- Sub-step count for `ball10a` over a 1/10s frame. -/
theorem ball10a_steps : ball10a.advance_steps (1/10) = 1 := by
  unfold Ball.advance_steps
  rw [ball10a_max_comp,
    pyint_eval_nonneg (1 * (1/10) / 4) 0 (by norm_num) (by norm_num) (by norm_num)]
  exact max_eq_left (by norm_num)

/-- Sub-step duration for `ball10a`. -/
theorem ball10a_sdt : ball10a.step_dt (1/10) = 1/10 := by
  unfold Ball.step_dt
  rw [ball10a_steps]
  norm_num

/-- `Ball.advance` of `ball10a` against the moved AI paddle: a pure 0.1px
translation. -/
theorem ball10a_advance_A :
    Ball.advance ball10a (1/10) playerP paddleA =
      { ball10a with
        x := ball10a.x + ball10a.vx * (1/10)
        y := ball10a.y + ball10a.vy * (1/10) } := by
  rw [Ball.advance_one _ _ _ _ ball10a_steps, ball10a_sdt]
  exact Ball.advance_substep_free playerP paddleA (1/10) ball10a
    (by norm_num [ball10a])
    (by norm_num [ball10a])
    (fun h => absurd h.2 (by norm_num [ball10a]))
    (fun h => by
      have hc := h.1
      rw [paddleA_rect,
        pyint_eval_nonneg (ball10a.x + ball10a.vx * (1/10)) 400 (by norm_num [ball10a])
          (by norm_num [ball10a]) (by norm_num [ball10a]),
        pyint_eval_nonneg ball10a.width 10 (by norm_num [ball10a])
          (by norm_num [ball10a]) (by norm_num [ball10a])] at hc
      exact absurd hc.2.1 (by norm_num))

/-- `Ball.advance` of `ball10a` against the unmoved AI paddle: the same pure
translation. -/
theorem ball10a_advance_B :
    Ball.advance ball10a (1/10) playerP aiP =
      { ball10a with
        x := ball10a.x + ball10a.vx * (1/10)
        y := ball10a.y + ball10a.vy * (1/10) } := by
  rw [Ball.advance_one _ _ _ _ ball10a_steps, ball10a_sdt]
  exact Ball.advance_substep_free playerP aiP (1/10) ball10a
    (by norm_num [ball10a])
    (by norm_num [ball10a])
    (fun h => absurd h.2 (by norm_num [ball10a]))
    (fun h => by
      have hc := h.1
      rw [aiP_rect,
        pyint_eval_nonneg (ball10a.x + ball10a.vx * (1/10)) 400 (by norm_num [ball10a])
          (by norm_num [ball10a]) (by norm_num [ball10a]),
        pyint_eval_nonneg ball10a.width 10 (by norm_num [ball10a])
          (by norm_num [ball10a]) (by norm_num [ball10a])] at hc
      exact absurd hc.2.1 (by norm_num))

/-- `max(abs(vx), abs(vy))` for `ball10b`. -/
theorem ball10b_max_comp : ball10b.max_comp = 1 := by
  unfold Ball.max_comp ball10b
  rw [show |(-1 : ℝ)| = 1 from by rw [abs_of_nonpos (by norm_num : (-1 : ℝ) ≤ 0)]; norm_num,
    abs_zero]
  exact max_eq_left (by norm_num)

/-- Sub-step count for `ball10b` over a 1/10s frame. -/
theorem ball10b_steps : ball10b.advance_steps (1/10) = 1 := by
  unfold Ball.advance_steps
  rw [ball10b_max_comp,
    pyint_eval_nonneg (1 * (1/10) / 4) 0 (by norm_num) (by norm_num) (by norm_num)]
  exact max_eq_left (by norm_num)

/-- Sub-step duration for `ball10b`. -/
theorem ball10b_sdt : ball10b.step_dt (1/10) = 1/10 := by
  unfold Ball.step_dt
  rw [ball10b_steps]
  norm_num

/-- `Ball.advance` of `ball10b` against the drifted AI paddle: a pure 0.1px
translation leftward. -/
theorem ball10b_advance_A :
    Ball.advance ball10b (1/10) playerP paddleB =
      { ball10b with
        x := ball10b.x + ball10b.vx * (1/10)
        y := ball10b.y + ball10b.vy * (1/10) } := by
  rw [Ball.advance_one _ _ _ _ ball10b_steps, ball10b_sdt]
  exact Ball.advance_substep_free playerP paddleB (1/10) ball10b
    (by norm_num [ball10b])
    (by norm_num [ball10b])
    (fun h => by
      have hc := h.1
      rw [playerP_rect,
        pyint_eval_nonneg (ball10b.x + ball10b.vx * (1/10)) 399 (by norm_num [ball10b])
          (by norm_num [ball10b]) (by norm_num [ball10b])] at hc
      exact absurd hc.1 (by norm_num))
    (fun h => absurd h.2 (by norm_num [ball10b]))

/-- `Ball.advance` of `ball10b` against the parked AI paddle: the same pure
translation. -/
theorem ball10b_advance_B :
    Ball.advance ball10b (1/10) playerP paddle10 =
      { ball10b with
        x := ball10b.x + ball10b.vx * (1/10)
        y := ball10b.y + ball10b.vy * (1/10) } := by
  rw [Ball.advance_one _ _ _ _ ball10b_steps, ball10b_sdt]
  exact Ball.advance_substep_free playerP paddle10 (1/10) ball10b
    (by norm_num [ball10b])
    (by norm_num [ball10b])
    (fun h => by
      have hc := h.1
      rw [playerP_rect,
        pyint_eval_nonneg (ball10b.x + ball10b.vx * (1/10)) 399 (by norm_num [ball10b])
          (by norm_num [ball10b]) (by norm_num [ball10b])] at hc
      exact absurd hc.1 (by norm_num))
    (fun h => absurd h.2 (by norm_num [ball10b]))

/-- With the reaction window elapsed and the ball moving toward the AI above
the deadzone, the 0.03-draw missing (u1 = 1/2) lets the recomputed direction
-1 stand and the AI paddle moves up to y = 218. -/
theorem ai_section_10a_hi :
    engine10a.ai_section (1/10) 1000 oHi =
      { engine10a with ai_last_update_ms := 1000, ai_move_dir := -1, ai := paddleA } := by
  norm_num [GameEngine.ai_section, random_chance, Paddle.move_speed,
    engine10a, engine0, ball10a, aiP, paddleA, oHi, min_def, max_def]

/-- The same state with the 0.03-draw hitting (u1 = 1/100 < 0.03): the
recomputed direction is overridden to 0 and the AI paddle does not move. -/
theorem ai_section_10a_lo :
    engine10a.ai_section (1/10) 1000 oLo =
      { engine10a with ai_last_update_ms := 1000, ai_move_dir := 0 } := by
  norm_num [GameEngine.ai_section, random_chance, Paddle.move_speed,
    engine10a, engine0, ball10a, aiP, oLo, min_def, max_def]

/-- Ball moving away, direction 0, AI parked above center: the 0.22-draw
hitting (u2 = 1/10) makes the AI drift down to y = 232. -/
theorem ai_section_10b_drift :
    engine10b.ai_section (1/10) 1000 oDrift =
      { engine10b with ai_move_dir := 1, ai := paddleB } := by
  norm_num [GameEngine.ai_section, random_chance, Paddle.move_speed,
    engine10b, engine0, ball10b, paddle10, paddleB, oDrift, min_def, max_def]

/-- The same state with the 0.22-draw missing (u2 = 9/10): no drift, the AI
paddle stays at y = 200. -/
theorem ai_section_10b_stay :
    engine10b.ai_section (1/10) 1000 oStay = engine10b := by
  norm_num [GameEngine.ai_section, random_chance, Paddle.move_speed,
    engine10b, engine0, ball10b, paddle10, oStay, min_def, max_def]

/-- C10.  The PLAYING update is not a deterministic function of
(state, input, clock): from `engine10a` (ball moving toward the AI, reaction
window elapsed) the draw u1 = 1/2 yields AI paddle y = 218 while u1 = 1/100
(< 0.03, the human-error override) yields y = 250; from `engine10b` (ball
moving away, remembered direction 0, AI above center) the draw u2 = 1/10
(< 0.22, the center-drift bias) yields y = 232 while u2 = 9/10 yields
y = 200.  Identical states, dt and clock, different outcomes. -/
theorem c10_update_nondeterministic :
    ((engine10a.update (1/10) 1000 oHi).ai.y = 218 ∧
      (engine10a.update (1/10) 1000 oLo).ai.y = 250 ∧
      (engine10a.update (1/10) 1000 oHi).ai.y ≠ (engine10a.update (1/10) 1000 oLo).ai.y) ∧
    ((engine10b.update (1/10) 1000 oDrift).ai.y = 232 ∧
      (engine10b.update (1/10) 1000 oStay).ai.y = 200 ∧
      (engine10b.update (1/10) 1000 oDrift).ai.y ≠ (engine10b.update (1/10) 1000 oStay).ai.y) := by
  have hA : (engine10a.update (1/10) 1000 oHi).ai.y = 218 := by
    rw [update_playing engine10a (1/10) 1000 oHi rfl, ai_section_10a_hi,
      show ({ engine10a with ai_last_update_ms := 1000, ai_move_dir := -1, ai := paddleA } : GameEngine).ball = ball10a from rfl,
      show ({ engine10a with ai_last_update_ms := 1000, ai_move_dir := -1, ai := paddleA } : GameEngine).player = playerP from rfl,
      show ({ engine10a with ai_last_update_ms := 1000, ai_move_dir := -1, ai := paddleA } : GameEngine).ai = paddleA from rfl,
      ball10a_advance_A]
    norm_num [GameEngine.score_section, GameEngine.game_end_section,
      engine10a, engine0, ball10a, paddleA, oHi]
  have hB : (engine10a.update (1/10) 1000 oLo).ai.y = 250 := by
    rw [update_playing engine10a (1/10) 1000 oLo rfl, ai_section_10a_lo,
      show ({ engine10a with ai_last_update_ms := 1000, ai_move_dir := 0 } : GameEngine).ball = ball10a from rfl,
      show ({ engine10a with ai_last_update_ms := 1000, ai_move_dir := 0 } : GameEngine).player = playerP from rfl,
      show ({ engine10a with ai_last_update_ms := 1000, ai_move_dir := 0 } : GameEngine).ai = aiP from rfl,
      ball10a_advance_B]
    norm_num [GameEngine.score_section, GameEngine.game_end_section,
      engine10a, engine0, ball10a, aiP, oLo]
  have hC : (engine10b.update (1/10) 1000 oDrift).ai.y = 232 := by
    rw [update_playing engine10b (1/10) 1000 oDrift rfl, ai_section_10b_drift,
      show ({ engine10b with ai_move_dir := 1, ai := paddleB } : GameEngine).ball = ball10b from rfl,
      show ({ engine10b with ai_move_dir := 1, ai := paddleB } : GameEngine).player = playerP from rfl,
      show ({ engine10b with ai_move_dir := 1, ai := paddleB } : GameEngine).ai = paddleB from rfl,
      ball10b_advance_A]
    norm_num [GameEngine.score_section, GameEngine.game_end_section,
      engine10b, engine0, ball10b, paddleB, oDrift]
  have hD : (engine10b.update (1/10) 1000 oStay).ai.y = 200 := by
    rw [update_playing engine10b (1/10) 1000 oStay rfl, ai_section_10b_stay,
      show engine10b.ball = ball10b from rfl,
      show engine10b.player = playerP from rfl,
      show engine10b.ai = paddle10 from rfl,
      ball10b_advance_B]
    norm_num [GameEngine.score_section, GameEngine.game_end_section,
      engine10b, engine0, ball10b, paddle10, oStay]
  exact ⟨⟨hA, hB, by rw [hA, hB]; norm_num⟩, ⟨hC, hD, by rw [hC, hD]; norm_num⟩⟩

/-- Witness for C6 at the game's geometry: `ballC6` against the right (AI)
paddle. -/
theorem c6_paddle_bounce_away_witness :
    ((ballC6.vx > 0 →
      (ballC6.paddle_bounce aiP).vx < 0 ∧
        (ballC6.paddle_bounce aiP).x = aiP.x - ballC6.width - 1 ∧
        ¬ Rect.colliderect (ballC6.paddle_bounce aiP).rect aiP.rect) ∧
    (ballC6.vx < 0 →
      (ballC6.paddle_bounce aiP).vx > 0 ∧
        (ballC6.paddle_bounce aiP).x = aiP.x + aiP.width + 1 ∧
        ¬ Rect.colliderect (ballC6.paddle_bounce aiP).rect aiP.rect) ∧
    Ball.paddle_bounce ballC6 aiP = { ballC6 with x := 769, vx := -(1908/5), vy := 60 }) ∧
    ((ballC6L.vx > 0 →
      (ballC6L.paddle_bounce playerP).vx < 0 ∧
        (ballC6L.paddle_bounce playerP).x = playerP.x - ballC6L.width - 1 ∧
        ¬ Rect.colliderect (ballC6L.paddle_bounce playerP).rect playerP.rect) ∧
    (ballC6L.vx < 0 →
      (ballC6L.paddle_bounce playerP).vx > 0 ∧
        (ballC6L.paddle_bounce playerP).x = playerP.x + playerP.width + 1 ∧
        ¬ Rect.colliderect (ballC6L.paddle_bounce playerP).rect playerP.rect) ∧
    Ball.paddle_bounce ballC6 aiP = { ballC6 with x := 769, vx := -(1908/5), vy := 60 }) :=
  ⟨c6_paddle_bounce_away ballC6 aiP (by norm_num [aiP]) (by norm_num [ballC6])
    (by norm_num [ballC6]) (by norm_num [ballC6]) (by norm_num [aiP]),
   c6_paddle_bounce_away ballC6L playerP (by norm_num [playerP]) (by norm_num [ballC6L])
    (by norm_num [ballC6L]) (by norm_num [ballC6L]) (by norm_num [playerP])⟩

/-- C1.  The spec claims the engine constructor injects wall/paddle bounce
callbacks into the ball through a `set_callbacks` capability and that
construction succeeds.  In the code, `GameEngine.__init__` (game_engine.py
line 112) calls `self.ball.set_callbacks(...)`, but class `Ball` (ball.py)
defines no `set_callbacks` attribute and no notification slots at all, so the
attribute lookup raises `AttributeError` and construction fails for every
screen size and every random draw. -/
theorem c1_engine_construction_raises (width height : ℤ) (angle choice : ℝ) :
    GameEngine.engineInit width height angle choice =
      Except.error "AttributeError: Ball object has no attribute set_callbacks" := by
  have h : "set_callbacks" ∉ ballAttributes := by decide
  unfold GameEngine.engineInit
  rw [if_neg h]

/-- C7.  `Ball._wall_bounce`: whenever the ball has crossed the top bound
(`y ≤ 0`) or the bottom bound (`y + height ≥ screen_height`), the vertical
position is clamped into `[0, screen_height - height]` and the vertical
velocity sign flips exactly (`vy` becomes `-vy`), assuming the ball fits the
screen (`height ≤ screen_height`). -/
theorem c7_wall_bounce_clamps_and_flips (b : Ball)
    (hfit : b.height ≤ b.screen_height)
    (hcross : b.y ≤ 0 ∨ b.y + b.height ≥ b.screen_height) :
    0 ≤ b.wall_bounce.y ∧ b.wall_bounce.y ≤ b.screen_height - b.height ∧
      b.wall_bounce.vy = -b.vy := by
  unfold Ball.wall_bounce
  rcases hcross with h | h
  · rw [if_pos h]
    exact ⟨le_refl 0, by dsimp only; linarith, rfl⟩
  · by_cases h0 : b.y ≤ 0
    · rw [if_pos h0]
      exact ⟨le_refl 0, by dsimp only; linarith, rfl⟩
    · rw [if_neg h0, if_pos h]
      exact ⟨by dsimp only; linarith, by dsimp only; linarith, rfl⟩

/-- Witness for C7 at a concrete crossing: the 10px ball of the game at
`y = -455` on a 600px screen, past the top bound. -/
theorem c7_wall_bounce_clamps_and_flips_witness :
    (0 : ℝ) ≤ (Ball.wall_bounce ballC3).y ∧
      (Ball.wall_bounce ballC3).y ≤ ballC3.screen_height - ballC3.height ∧
      (Ball.wall_bounce ballC3).vy = -ballC3.vy :=
  c7_wall_bounce_clamps_and_flips ballC3 (by norm_num [ballC3])
    (Or.inl (by norm_num [ballC3]))

/-- C3 counterexample.  The claim quantifies over every paddle state and every
dt.  Two concrete refutations: (a) `auto_track` from `y = -500` with the ball
center inside the 6px deadzone is a no-op, leaving `y = -500 < 0`; (b)
`move_speed` on a paddle taller than the screen lands at `y = 0`, above the
claimed upper bound `screen_height - height = -100`. -/
theorem c3_counterexample :
    (paddleC3.auto_track ballC3 600 (1/60)).y = -500 ∧
      ¬ (0 ≤ (paddleC3.auto_track ballC3 600 (1/60)).y) ∧
      (paddleC3b.move_speed 0 0 600).y = 0 ∧
      ¬ ((paddleC3b.move_speed 0 0 600).y ≤ 600 - paddleC3b.height) := by
  unfold Paddle.auto_track Paddle.move_speed Paddle.center_y paddleC3 ballC3 paddleC3b
  norm_num

/-- C3 amended.  After `move_speed` the paddle's `y` lies in
`[0, screen_height - height]` for every direction and dt, provided the paddle
fits the screen; `auto_track` either leaves `y` unchanged or calls
`move_speed`, so it preserves the interval whenever `y` starts inside it. -/
theorem c3_amended_paddle_bounds (p : Paddle) (d : ℤ) (dt screenH : ℝ) (b : Ball)
    (hfit : p.height ≤ screenH) :
    (0 ≤ (p.move_speed d dt screenH).y ∧
      (p.move_speed d dt screenH).y ≤ screenH - p.height) ∧
    (0 ≤ p.y → p.y ≤ screenH - p.height →
      0 ≤ (p.auto_track b screenH dt).y ∧
        (p.auto_track b screenH dt).y ≤ screenH - p.height) := by
  have hms : ∀ d : ℤ, 0 ≤ (p.move_speed d dt screenH).y ∧
      (p.move_speed d dt screenH).y ≤ screenH - p.height := by
    intro d
    unfold Paddle.move_speed
    constructor
    · exact le_max_left 0 _
    · exact max_le (by linarith) (min_le_right _ _)
  refine ⟨hms d, fun hy0 hy1 => ?_⟩
  simp only [Paddle.auto_track]
  split_ifs <;> first | exact hms _ | exact ⟨hy0, hy1⟩

/-- Witness for C3 amended: the game's player paddle with direction +1,
dt = 1/60, on the 600px screen. -/
theorem c3_amended_paddle_bounds_witness :
    ((0 ≤ (playerP.move_speed 1 (1/60) 600).y ∧
      (playerP.move_speed 1 (1/60) 600).y ≤ 600 - playerP.height) ∧
    (0 ≤ playerP.y → playerP.y ≤ 600 - playerP.height →
      0 ≤ (playerP.auto_track ballC3 600 (1/60)).y ∧
        (playerP.auto_track ballC3 600 (1/60)).y ≤ 600 - playerP.height)) :=
  c3_amended_paddle_bounds playerP 1 (1/60) 600 ballC3 (by norm_num [playerP])

end PingPong
